import Mathlib

/-!
# Verification of the AC_RL telemetry/command transport layer

Shallow embedding of the two source files of the repository:

* `AC_RL.py` — the in-game app: `handle_input_data` (command processor),
  `check_input_file` (file/UDP command source), `acUpdate` (telemetry
  publisher tick) and the socket helpers `_create_udp_socket` /
  `_close_socket`.
* `telemetry.py` — the standalone aggregating UDP receiver loop.

Side effects (socket creation/close, host commands, file writes, log
lines, datagram sends) are recorded in an explicit event trace; the
outcomes of the fallible environment operations (socket creation, file
writes, UDP sends, external data-source queries) are supplied by an
environment record, one flag or function per operation the Python code
guards with `try`/`except`.  Every Python-level handler that swallows an
exception is embedded as the corresponding total branch, so each embedded
entry point is a total Lean function — totality of the embedding is the
image of "no exception escapes" in the source.
-/

/-- JSON values as produced by Python's `json.loads` / consumed by
`json.dump`.  Numbers are restricted to integers in this model (every
numeric literal exercised by the claims is an integer). -/
inductive JValue where
  | null : JValue
  | bool (b : Bool) : JValue
  | num (n : Int) : JValue
  | str (s : String) : JValue
  | arr (elems : List JValue) : JValue
  | obj (fields : List (String × JValue)) : JValue

/-- Python dict lookup `m[k]` / `m.get(k)` on a JSON object, modelled on the
(insertion-ordered, duplicate-free) association list of fields. -/
def jGet (m : List (String × JValue)) (k : String) : Option JValue :=
  (m.find? (fun kv => kv.1 == k)).map (fun kv => kv.2)

/-- Python `m.get(k, dflt)`. -/
def jGetD (m : List (String × JValue)) (k : String) (dflt : JValue) : JValue :=
  (jGet m k).getD dflt

/-- Python `k in m`. -/
def jMem (m : List (String × JValue)) (k : String) : Bool :=
  (jGet m k).isSome

/-- Python dict assignment `m[k] = v`: an existing key keeps its position,
a new key is appended (insertion order semantics of `dict`). -/
def jSet (m : List (String × JValue)) (k : String) (v : JValue) :
    List (String × JValue) :=
  if jMem m k then m.map (fun kv => if kv.1 == k then (k, v) else kv)
  else m ++ [(k, v)]

/-- Python `x is True` on a JSON-decoded value. -/
def isPyTrue : Option JValue → Bool
  | some (JValue.bool true) => true
  | _ => false

/-- Python `bool(x)` (truthiness) on a JSON-decoded value. -/
def pyTruthy : JValue → Bool
  | JValue.null => false
  | JValue.bool b => b
  | JValue.num n => n != 0
  | JValue.str s => s != ""
  | JValue.arr xs => !xs.isEmpty
  | JValue.obj fs => !fs.isEmpty

/-- Digits of a decimal literal folded to a natural number. -/
def natOfDigits (cs : List Char) : Nat :=
  cs.foldl (fun a c => a * 10 + (c.toNat - 48)) 0

/-- Strip leading and trailing spaces, as Python `int(str)` does. -/
def stripSpaces (cs : List Char) : List Char :=
  ((cs.dropWhile (fun c => c = ' ')).reverse.dropWhile (fun c => c = ' ')).reverse

/-- Python `int(s)` on a string: optional sign, then a nonempty run of
decimal digits (surrounding whitespace stripped); anything else raises
`ValueError`, modelled as `none`. -/
def pyIntOfChars (cs : List Char) : Option Int :=
  let core : List Char → Option Nat := fun ds =>
    if ds.isEmpty then none
    else if ds.all Char.isDigit then some (natOfDigits ds) else none
  match stripSpaces cs with
  | '-' :: rest => (core rest).map (fun n => -(n : Int))
  | '+' :: rest => (core rest).map (fun n => (n : Int))
  | other => (core other).map (fun n => (n : Int))

/-- Python `int(x)` on a JSON-decoded value: ints pass through, bools map
to 0/1, numeric strings are parsed; everything else raises, modelled as
`none`. -/
def pyInt : JValue → Option Int
  | JValue.num n => some n
  | JValue.bool b => some (if b then 1 else 0)
  | JValue.str s => pyIntOfChars s.data
  | _ => none

/-! ## Application state and effect trace (`AC_RL.py` module globals) -/

/-- The module-level globals of `AC_RL.py` that the command processor and
publisher read and write.  The host fields hold arbitrary JSON values
because the source assigns `cmd.get(...)` to them without validation;
ports are `Int` because they pass through `int(...)` first. -/
structure AppState where
  TELEMETRY_UDP_HOST : JValue
  TELEMETRY_UDP_PORT : Int
  telemetry_sock : Option Nat
  telemetry_addr : JValue × Int
  INPUT_UDP_HOST : JValue
  INPUT_UDP_PORT : Int
  input_sock : Option Nat
  input_addr : JValue × Int

/-- Observable side effects of the embedded code, in program order. -/
inductive Effect where
  | sockCreate (id : Nat) (bindSock : Bool) (ok : Bool) : Effect
  | sockClose (id : Nat) : Effect
  | sendCMD (code : Int) : Effect
  | sendTo (id : Nat) (payload : JValue) (addr : JValue × Int) : Effect
  | writeTmp (path : String) (content : JValue) : Effect
  | replaceFile (src dst : String) : Effect
  | renameFile (src dst : String) : Effect
  | log (msg : String) : Effect

/-- A world: the mutable globals, a fresh-id counter for socket handles,
the multisets of currently live OS-level handles (command-in sockets are
the bound ones, telemetry sockets the unbound ones), and the effect
trace. -/
structure World where
  state : AppState
  nextSock : Nat
  liveInput : List Nat
  liveTelemetry : List Nat
  events : List Effect

/-- Append one effect to the trace. -/
def emit (w : World) (e : Effect) : World :=
  { w with events := w.events ++ [e] }

/-- Outcomes of the fallible operations one `handle_input_data` call (or
one publisher tick) can attempt; `createOk n` decides the fate of the
socket-creation attempt that draws fresh id `n`. -/
structure CmdEnv where
  createOk : Nat → Bool
  writeOk : Bool
  replaceOk : Bool
  renameOk : Bool

/-- `_create_udp_socket` (lines 87–104): returns a fresh handle on
success, `None` on failure — it never raises to the caller.  `bindSock`
is true for the command-in socket (`bind=True`), false for the telemetry
socket. -/
def create_udp_socket (env : CmdEnv) (w : World) (bindSock : Bool) :
    Option Nat × World :=
  let i := w.nextSock
  if env.createOk i then
    (some i,
      { w with
        nextSock := i + 1
        liveInput := if bindSock then w.liveInput ++ [i] else w.liveInput
        liveTelemetry := if bindSock then w.liveTelemetry else w.liveTelemetry ++ [i]
        events := w.events ++ [Effect.sockCreate i bindSock true] })
  else
    (none,
      { w with
        nextSock := i + 1
        events := w.events ++
          [Effect.sockCreate i bindSock false, Effect.log "_create_udp_socket error"] })

/-- `_close_socket` / inline `sock.close()`: a no-op on a null handle,
otherwise releases the OS resource (close errors are swallowed by the
source and the handle is dead afterwards either way). -/
def close_socket (w : World) (isInput : Bool) (h : Option Nat) : World :=
  match h with
  | none => w
  | some id =>
    { w with
      liveInput := if isInput then w.liveInput.erase id else w.liveInput
      liveTelemetry := if isInput then w.liveTelemetry else w.liveTelemetry.erase id
      events := w.events ++ [Effect.sockClose id] }

/-! ## `handle_input_data` (lines 162–326), one `def` per `if` block -/

/-- Lines 176–196: retarget the telemetry destination.  The globals and
`telemetry_addr` are updated only after `int(port)` succeeds; a
non-numeric port is logged and the whole block is skipped. -/
def telemetry_target_block (cmd : List (String × JValue)) (w : World) : World :=
  if jMem cmd "telemetry_udp_host" || jMem cmd "telemetry_udp_port" then
    let host := jGetD cmd "telemetry_udp_host" w.state.TELEMETRY_UDP_HOST
    let port := jGetD cmd "telemetry_udp_port" (JValue.num w.state.TELEMETRY_UDP_PORT)
    match pyInt port with
    | some p =>
      let st := { w.state with
        TELEMETRY_UDP_HOST := host
        TELEMETRY_UDP_PORT := p
        telemetry_addr := (host, p) }
      emit { w with state := st } (Effect.log "Telemetry UDP target updated via input")
    | none => emit w (Effect.log "Invalid telemetry_udp_port in input")
  else w

/-- Lines 197–226: enable/disable the telemetry transport.  Disabling
with a live handle closes and nulls it; enabling with a null handle
creates a new (unbound) socket and refreshes `telemetry_addr`; the other
two combinations fall through with no effect. -/
def use_udp_telemetry_block (env : CmdEnv) (cmd : List (String × JValue))
    (w : World) : World :=
  if jMem cmd "use_udp_telemetry" then
    let use_udp := pyTruthy (jGetD cmd "use_udp_telemetry" JValue.null)
    if !use_udp && w.state.telemetry_sock.isSome then
      let w := close_socket w false w.state.telemetry_sock
      let w := { w with state := { w.state with telemetry_sock := none } }
      emit w (Effect.log "Telemetry UDP disabled via input")
    else if use_udp && w.state.telemetry_sock.isNone then
      let r := create_udp_socket env w false
      let w := r.2
      let st := { w.state with
        telemetry_sock := r.1
        telemetry_addr := (w.state.TELEMETRY_UDP_HOST, w.state.TELEMETRY_UDP_PORT) }
      emit { w with state := st } (Effect.log "Telemetry UDP enabled via input")
    else w
  else w

/-- Lines 227–262: rebind the command-in endpoint.  After `int(port)`
succeeds the globals and `input_addr` are updated first; an existing
socket is then closed and nulled; finally a new bound socket is created —
`_create_udp_socket` returns `None` on failure, so the success log on
line 250 runs unconditionally and the `except` on line 253 is dead code.
A non-numeric port skips the whole block. -/
def input_rebind_block (env : CmdEnv) (cmd : List (String × JValue))
    (w : World) : World :=
  if jMem cmd "input_udp_host" || jMem cmd "input_udp_port" then
    let host := jGetD cmd "input_udp_host" w.state.INPUT_UDP_HOST
    let port := jGetD cmd "input_udp_port" (JValue.num w.state.INPUT_UDP_PORT)
    match pyInt port with
    | some p =>
      let st := { w.state with
        INPUT_UDP_HOST := host
        INPUT_UDP_PORT := p
        input_addr := (host, p) }
      let w := { w with state := st }
      let w :=
        if w.state.input_sock.isSome then
          let w := close_socket w true w.state.input_sock
          { w with state := { w.state with input_sock := none } }
        else w
      let r := create_udp_socket env w true
      let w := { r.2 with state := { r.2.state with input_sock := r.1 } }
      emit w (Effect.log "Input UDP socket bound")
    | none => emit w (Effect.log "Invalid input_udp_port in input")
  else w

/-- Lines 264–292: enable/disable the command-in transport, symmetric to
`use_udp_telemetry_block` but with a bound socket (and no address
refresh). -/
def use_input_udp_block (env : CmdEnv) (cmd : List (String × JValue))
    (w : World) : World :=
  if jMem cmd "use_input_udp" then
    let use_in := pyTruthy (jGetD cmd "use_input_udp" JValue.null)
    if !use_in && w.state.input_sock.isSome then
      let w := close_socket w true w.state.input_sock
      let w := { w with state := { w.state with input_sock := none } }
      emit w (Effect.log "Input UDP disabled via input")
    else if use_in && w.state.input_sock.isNone then
      let r := create_udp_socket env w true
      let w := { r.2 with state := { r.2.state with input_sock := r.1 } }
      emit w (Effect.log "Input UDP enabled via input")
    else w
  else w

/-- Lines 294–324: the one-shot `reset` command.  `cmd.get("reset") is
True` fires `call_sendcmd(68)` then `call_sendcmd(69)` (both swallow all
errors), and when the message came from a backing file, rewrites that
file with `reset` set to `False` via write-temp-then-`os.replace`, with
plain `os.rename` as fallback; any write failure is logged and
swallowed. -/
def reset_block (env : CmdEnv) (cmd : List (String × JValue))
    (path : Option String) (w : World) : World :=
  if isPyTrue (jGet cmd "reset") then
    let w := { w with events := w.events ++ [Effect.sendCMD 68, Effect.sendCMD 69] }
    match path with
    | some p =>
      let newCmd := jSet cmd "reset" (JValue.bool false)
      let tmp := p ++ ".tmp"
      if env.writeOk then
        let w := emit w (Effect.writeTmp tmp (JValue.obj newCmd))
        if env.replaceOk then emit w (Effect.replaceFile tmp p)
        else if env.renameOk then emit w (Effect.renameFile tmp p)
        else emit w (Effect.log "Error writing input file after reset")
      else emit w (Effect.log "Error writing input file after reset")
    | none => w
  else w

/-- `handle_input_data(cmd, path)` (lines 162–326): a non-dict message is
ignored; otherwise the five key blocks run in source order, each fault
isolated. -/
def handle_input_data (env : CmdEnv) (cmd : JValue) (path : Option String)
    (w : World) : World :=
  match cmd with
  | JValue.obj m =>
    let w := telemetry_target_block m w
    let w := use_udp_telemetry_block env m w
    let w := input_rebind_block env m w
    let w := use_input_udp_block env m w
    reset_block env m path w
  | _ => w

/-! ## File-system replay of the write events -/

/-- A flat file system: path ↦ serialized JSON document. -/
abbrev FileSys := List (String × JValue)

/-- Current content of a path. -/
def getFs (fs : FileSys) (p : String) : Option JValue :=
  (fs.find? (fun kv => kv.1 == p)).map (fun kv => kv.2)

/-- Overwrite (or create) a path. -/
def setFs (fs : FileSys) (p : String) (v : JValue) : FileSys :=
  (p, v) :: fs.filter (fun kv => !(kv.1 == p))

/-- Remove a path. -/
def delFs (fs : FileSys) (p : String) : FileSys :=
  fs.filter (fun kv => !(kv.1 == p))

/-- Effect of one trace event on the file system: `writeTmp` creates the
temp file; `os.replace` / `os.rename` atomically move it onto the target;
everything else leaves the disk alone. -/
def applyEvent (fs : FileSys) : Effect → FileSys
  | Effect.writeTmp p c => setFs fs p c
  | Effect.replaceFile src dst =>
    (match getFs fs src with
     | some c => setFs (delFs fs src) dst c
     | none => fs)
  | Effect.renameFile src dst =>
    (match getFs fs src with
     | some c => setFs (delFs fs src) dst c
     | none => fs)
  | _ => fs

/-- Replay a trace over a file system. -/
def runFs (fs : FileSys) (es : List Effect) : FileSys :=
  es.foldl applyEvent fs

/-- Events that touch the file system. -/
def isFsEvent : Effect → Bool
  | Effect.writeTmp _ _ => true
  | Effect.replaceFile _ _ => true
  | Effect.renameFile _ _ => true
  | _ => false

/-- Host commands (`call_sendcmd`). -/
def isSendCMD : Effect → Bool
  | Effect.sendCMD _ => true
  | _ => false

/-- Socket lifecycle events. -/
def isSockEvent : Effect → Bool
  | Effect.sockCreate _ _ _ => true
  | Effect.sockClose _ => true
  | _ => false

/-- Delivery of a telemetry snapshot: a UDP send or a fallback-file
temp write. -/
def isDelivery : Effect → Bool
  | Effect.sendTo _ _ _ => true
  | Effect.writeTmp _ _ => true
  | _ => false

/-! ## `check_input_file` (lines 329–400) and the publisher tick -/

/-- Which `ac_api` provider modules imported successfully (lines 46–64;
on failure all six are `None`, but we allow each independently since
`safe_call` guards each one). -/
structure Providers where
  tyre_info : Bool
  car_info : Bool
  car_stats : Bool
  input_info : Bool
  lap_info : Bool
  session_info : Bool

/-- The six provider modules, for indexing queries. -/
inductive ACMod where
  | tyre_info | car_info | car_stats | input_info | lap_info | session_info
deriving DecidableEq

/-- Whether a module object is non-`None`. -/
def moduleAvailable (p : Providers) : ACMod → Bool
  | ACMod.tyre_info => p.tyre_info
  | ACMod.car_info => p.car_info
  | ACMod.car_stats => p.car_stats
  | ACMod.input_info => p.input_info
  | ACMod.lap_info => p.lap_info
  | ACMod.session_info => p.session_info

/-- Environment of one `acUpdate` tick: the command file found (path and
parse result) if any, the datagrams the input-socket drain loop would
return, the per-call failure outcomes, the external data source (`none`
models "the call raised" or "the attribute is missing"), and the clock. -/
structure TickEnv where
  inputFile : Option (String × Option JValue)
  udpPackets : List (Option JValue)
  cmdEnv : CmdEnv
  providers : Providers
  sample : ACMod → String → List JValue → Option JValue
  timestamp : Int
  docs : String
  sendOk : Bool
  writeOk : Bool
  replaceOk : Bool
  renameOk : Bool

/-- `safe_call(mod, name, *args, default=None)` (lines 67–83): `None`
module, missing attribute, or a raising call all collapse to the default
`None`; otherwise the call's value is returned. -/
def safe_call (env : TickEnv) (m : ACMod) (name : String) (args : List JValue) :
    JValue :=
  if moduleAvailable env.providers m then
    match env.sample m name args with
    | some v => v
    | none => JValue.null
  else JValue.null

/-- The UDP drain loop (lines 375–400): each `recvfrom` on a live socket
yields the next queued datagram's parse result (`none` = bad JSON: logged
and skipped).  If a processed command nulls `input_sock`, the next
`recvfrom` raises `AttributeError`, which only the outer handler catches:
logged, drain over. -/
def drain_input (env : CmdEnv) (pkts : List (Option JValue)) (w : World) :
    World :=
  match pkts with
  | [] => w
  | pkt :: rest =>
    match w.state.input_sock with
    | none => emit w (Effect.log "Error reading from input UDP socket")
    | some _ =>
      let w :=
        match pkt with
        | some c => handle_input_data env c none w
        | none => emit w (Effect.log "Error parsing input UDP JSON")
      drain_input env rest w

/-- `check_input_file` (lines 329–400): process the command file if one
was found and parsed to a dict, then drain the input UDP socket. -/
def check_input_file (env : TickEnv) (w : World) : World :=
  let w :=
    match env.inputFile with
    | none => w
    | some (_, none) => emit w (Effect.log "Error reading input file")
    | some (p, some d) =>
      match d with
      | JValue.obj m => handle_input_data env.cmdEnv (JValue.obj m) (some p) w
      | _ => w
  match w.state.input_sock with
  | some _ => drain_input env.cmdEnv env.udpPackets w
  | none => w

/-! ## The telemetry snapshot (lines 526–642) -/

/-- Lines 528–565: the `tyres` array, one object per wheel index. -/
def tyres_group (env : TickEnv) : JValue :=
  JValue.arr ((List.range 4).map (fun t =>
    JValue.obj
      [("index", JValue.num (t : Int)),
       ("wear", safe_call env ACMod.tyre_info "get_tyre_wear_value" [JValue.num (t : Int)]),
       ("dirty", safe_call env ACMod.tyre_info "get_tyre_dirty" [JValue.num (t : Int)]),
       ("pressure", safe_call env ACMod.tyre_info "get_tyre_pressure" [JValue.num (t : Int)]),
       ("temp_i", safe_call env ACMod.tyre_info "get_tyre_temp" [JValue.num (t : Int), JValue.str "i"]),
       ("temp_m", safe_call env ACMod.tyre_info "get_tyre_temp" [JValue.num (t : Int), JValue.str "m"]),
       ("temp_o", safe_call env ACMod.tyre_info "get_tyre_temp" [JValue.num (t : Int), JValue.str "o"]),
       ("slip_ratio", safe_call env ACMod.tyre_info "get_slip_ratio" [JValue.num (t : Int)]),
       ("slip_angle", safe_call env ACMod.tyre_info "get_slip_angle" [JValue.num (t : Int)]),
       ("heading_vector", safe_call env ACMod.tyre_info "get_tyre_heading_vector" [JValue.num (t : Int)]),
       ("angular_speed", safe_call env ACMod.tyre_info "get_angular_speed" [JValue.num (t : Int)])]))

/-- Lines 567–578: the `session` group. -/
def session_group (env : TickEnv) : JValue :=
  JValue.obj
    [("session_type", safe_call env ACMod.session_info "get_session_type" []),
     ("driver_name", safe_call env ACMod.session_info "get_driver_name" []),
     ("track_name", safe_call env ACMod.session_info "get_track_name" []),
     ("track_config", safe_call env ACMod.session_info "get_track_config" []),
     ("track_length", safe_call env ACMod.session_info "get_track_length" []),
     ("cars_count", safe_call env ACMod.session_info "get_cars_count" []),
     ("session_status", safe_call env ACMod.session_info "get_session_status" []),
     ("air_temp", safe_call env ACMod.session_info "get_air_temp" []),
     ("road_temp", safe_call env ACMod.session_info "get_road_temp" [])]

/-- Lines 580–599: the `car` group. -/
def car_group (env : TickEnv) : JValue :=
  JValue.obj
    [("speed_kmh", safe_call env ACMod.car_info "get_speed" [JValue.num 0, JValue.str "kmh"]),
     ("speed_mph", safe_call env ACMod.car_info "get_speed" [JValue.num 0, JValue.str "mph"]),
     ("speed_ms", safe_call env ACMod.car_info "get_speed" [JValue.num 0, JValue.str "ms"]),
     ("location", safe_call env ACMod.car_info "get_location" [JValue.num 0]),
     ("world_location", safe_call env ACMod.car_info "get_world_location" [JValue.num 0]),
     ("position", safe_call env ACMod.car_info "get_position" [JValue.num 0]),
     ("drs_available", safe_call env ACMod.car_info "get_drs_available" []),
     ("drs_enabled", safe_call env ACMod.car_info "get_drs_enabled" []),
     ("gear", safe_call env ACMod.car_info "get_gear" [JValue.num 0, JValue.bool true]),
     ("rpm", safe_call env ACMod.car_info "get_rpm" [JValue.num 0]),
     ("fuel", safe_call env ACMod.car_info "get_fuel" []),
     ("tyres_off_track", safe_call env ACMod.car_info "get_tyres_off_track" []),
     ("in_pit_lane", safe_call env ACMod.car_info "get_car_in_pit_lane" []),
     ("damage", safe_call env ACMod.car_info "get_total_damage" []),
     ("cg_height", safe_call env ACMod.car_info "get_cg_height" [JValue.num 0]),
     ("drive_train_speed", safe_call env ACMod.car_info "get_drive_train_speed" [JValue.num 0]),
     ("velocity", safe_call env ACMod.car_info "get_velocity" []),
     ("acceleration", safe_call env ACMod.car_info "get_acceleration" [])]

/-- Lines 601–607: the `inputs` group. -/
def inputs_group (env : TickEnv) : JValue :=
  JValue.obj
    [("gas", safe_call env ACMod.input_info "get_gas_input" [JValue.num 0]),
     ("brake", safe_call env ACMod.input_info "get_brake_input" [JValue.num 0]),
     ("clutch", safe_call env ACMod.input_info "get_clutch" [JValue.num 0]),
     ("steer", safe_call env ACMod.input_info "get_steer_input" [JValue.num 0]),
     ("last_ff", safe_call env ACMod.input_info "get_last_ff" [JValue.num 0])]

/-- Lines 609–622: the `lap` group. -/
def lap_group (env : TickEnv) : JValue :=
  JValue.obj
    [("get_current_lap_time", safe_call env ACMod.lap_info "get_current_lap_time" [JValue.num 0, JValue.bool false]),
     ("get_last_lap_time", safe_call env ACMod.lap_info "get_last_lap_time" [JValue.num 0, JValue.bool false]),
     ("get_best_lap_time", safe_call env ACMod.lap_info "get_best_lap_time" [JValue.num 0, JValue.bool false]),
     ("get_splits", safe_call env ACMod.lap_info "get_splits" [JValue.num 0, JValue.bool false]),
     ("get_split", safe_call env ACMod.lap_info "get_split" []),
     ("get_invalid", safe_call env ACMod.lap_info "get_invalid" [JValue.num 0]),
     ("get_lap_count", safe_call env ACMod.lap_info "get_lap_count" [JValue.num 0]),
     ("get_laps", safe_call env ACMod.lap_info "get_laps" []),
     ("get_lap_delta", safe_call env ACMod.lap_info "get_lap_delta" [JValue.num 0]),
     ("get_current_sector", safe_call env ACMod.lap_info "get_current_sector" [])]

/-- Lines 624–631: the `stats` group. -/
def stats_group (env : TickEnv) : JValue :=
  JValue.obj
    [("has_drs", safe_call env ACMod.car_stats "get_has_drs" []),
     ("has_ers", safe_call env ACMod.car_stats "get_has_ers" []),
     ("has_kers", safe_call env ACMod.car_stats "get_has_kers" []),
     ("abs_level", safe_call env ACMod.car_stats "abs_level" []),
     ("max_rpm", safe_call env ACMod.car_stats "get_max_rpm" []),
     ("max_fuel", safe_call env ACMod.car_stats "get_max_fuel" [])]

/-- The field group read via `safe_call` from each provider module. -/
def group (env : TickEnv) : ACMod → JValue
  | ACMod.tyre_info => tyres_group env
  | ACMod.car_info => car_group env
  | ACMod.car_stats => stats_group env
  | ACMod.input_info => inputs_group env
  | ACMod.lap_info => lap_group env
  | ACMod.session_info => session_group env

/-- Lines 633–642: the full `payload` dict built each tick. -/
def payloadJson (env : TickEnv) : JValue :=
  JValue.obj
    [("app", JValue.str "AC_RL"),
     ("timestamp", JValue.num env.timestamp),
     ("session", session_group env),
     ("car", car_group env),
     ("inputs", inputs_group env),
     ("lap", lap_group env),
     ("tyres", tyres_group env),
     ("stats", stats_group env)]

/-- `TELEMETRY_FILENAME` (line 147). -/
def TELEMETRY_FILENAME : String := "AC_RL_telemetry.json"

/-- `os.path.join(docs, TELEMETRY_FILENAME)` (line 664). -/
def telemetryPath (env : TickEnv) : String :=
  env.docs ++ "/" ++ TELEMETRY_FILENAME

/-- Lines 510–516: the label-update loop reads six tyre fields per wheel
*directly* (not via `safe_call`); any of those raising aborts the whole
`try` body before the payload is even built. -/
def label_loop_ok (env : TickEnv) : Bool :=
  (List.range 4).all (fun t =>
    (env.sample ACMod.tyre_info "get_tyre_wear_value" [JValue.num (t : Int)]).isSome &&
    (env.sample ACMod.tyre_info "get_tyre_dirty" [JValue.num (t : Int)]).isSome &&
    (env.sample ACMod.tyre_info "get_tyre_pressure" [JValue.num (t : Int)]).isSome &&
    (env.sample ACMod.tyre_info "get_tyre_temp" [JValue.num (t : Int), JValue.str "i"]).isSome &&
    (env.sample ACMod.tyre_info "get_tyre_temp" [JValue.num (t : Int), JValue.str "m"]).isSome &&
    (env.sample ACMod.tyre_info "get_tyre_temp" [JValue.num (t : Int), JValue.str "o"]).isSome)

/-- Lines 657–678: fall back to the atomic file write of the payload
(write `*.tmp`, then `os.replace`, then `os.rename`; failures logged and
swallowed). -/
def fallback_write (env : TickEnv) (payload : JValue) (w : World) : World :=
  let tmp := telemetryPath env ++ ".tmp"
  if env.writeOk then
    let w := emit w (Effect.writeTmp tmp payload)
    if env.replaceOk then emit w (Effect.replaceFile tmp (telemetryPath env))
    else if env.renameOk then emit w (Effect.renameFile tmp (telemetryPath env))
    else emit w (Effect.log "Error writing telemetry file")
  else emit w (Effect.log "Error writing telemetry file")

/-- Lines 644–678: the delivery policy — UDP first when a socket is live,
fallback file write when there is no socket or the send raised. -/
def publish_telemetry (env : TickEnv) (w : World) : World :=
  let payload := payloadJson env
  match w.state.telemetry_sock with
  | some h =>
    if env.sendOk then
      emit w (Effect.sendTo h payload w.state.telemetry_addr)
    else
      let w := emit w (Effect.log "Error sending telemetry via UDP")
      fallback_write env payload w
  | none => fallback_write env payload w

/-- `acUpdate` (lines 490–690): process commands, then — unless
`tyre_info` is `None` (early return on line 507) or a direct label read
raises (caught only by the outer handler on line 685) — build and
deliver the snapshot.  The function is total: every exception path of
the source is a caught branch here. -/
def acUpdate (env : TickEnv) (w : World) : World :=
  let w := check_input_file env w
  if !env.providers.tyre_info then
    emit w (Effect.log "tyre_info is None; skipping update")
  else if !label_loop_ok env then
    emit w (Effect.log "Error updating tyre labels")
  else
    publish_telemetry env w

/-! ## The aggregating receiver (`telemetry.py`)

Library calls of the receiver are modelled executably: `bytes.decode
("utf-8")` as a strict UTF-8 decoder (continuation-byte, overlong and
surrogate checks) and `json.loads` as a recursive-descent parser with
fuel.  The JSON model keeps `json.loads`'s grammar except that numbers
are restricted to integers (no fraction/exponent), which covers every
payload the theorems below evaluate. -/

/-- UTF-8 continuation byte. -/
def isContByte (b : Nat) : Bool := 128 ≤ b && b ≤ 191

/-- Strict UTF-8 decoding of a byte list, Python `bytes.decode("utf-8")`:
`none` models `UnicodeDecodeError`. -/
def utf8Decode : List Nat → Option (List Char)
  | [] => some []
  | b :: rest =>
    if b ≤ 127 then (utf8Decode rest).map (fun cs => Char.ofNat b :: cs)
    else if 194 ≤ b && b ≤ 223 then
      match rest with
      | c1 :: rest2 =>
        if isContByte c1 then
          (utf8Decode rest2).map (fun cs => Char.ofNat ((b - 192) * 64 + (c1 - 128)) :: cs)
        else none
      | [] => none
    else if 224 ≤ b && b ≤ 239 then
      match rest with
      | c1 :: c2 :: rest3 =>
        let lo1 := if b = 224 then 160 else 128
        let hi1 := if b = 237 then 159 else 191
        if lo1 ≤ c1 && c1 ≤ hi1 && isContByte c2 then
          (utf8Decode rest3).map (fun cs =>
            Char.ofNat ((b - 224) * 4096 + (c1 - 128) * 64 + (c2 - 128)) :: cs)
        else none
      | _ => none
    else if 240 ≤ b && b ≤ 244 then
      match rest with
      | c1 :: c2 :: c3 :: rest4 =>
        let lo1 := if b = 240 then 144 else 128
        let hi1 := if b = 244 then 143 else 191
        if lo1 ≤ c1 && c1 ≤ hi1 && isContByte c2 && isContByte c3 then
          (utf8Decode rest4).map (fun cs =>
            Char.ofNat ((b - 240) * 262144 + (c1 - 128) * 4096 + (c2 - 128) * 64 + (c3 - 128)) :: cs)
        else none
      | _ => none
    else none

/-- JSON insignificant whitespace. -/
def jsonSkipWs : List Char → List Char
  | c :: rest =>
    if c = ' ' || c = '\t' || c = '\n' || c = '\r' then jsonSkipWs rest
    else c :: rest
  | [] => []

/-- JSON string body after the opening quote; the accumulator is
reversed.  `\u` escapes are outside this model (no payload below uses
them). -/
def parseJStringAux : List Char → List Char → Option (String × List Char)
  | acc, '"' :: rest => some (String.mk acc.reverse, rest)
  | acc, '\\' :: e :: rest =>
    (match e with
     | '"' => parseJStringAux ('"' :: acc) rest
     | '\\' => parseJStringAux ('\\' :: acc) rest
     | '/' => parseJStringAux ('/' :: acc) rest
     | 'n' => parseJStringAux ('\n' :: acc) rest
     | 't' => parseJStringAux ('\t' :: acc) rest
     | 'r' => parseJStringAux ('\r' :: acc) rest
     | 'b' => parseJStringAux (Char.ofNat 8 :: acc) rest
     | 'f' => parseJStringAux (Char.ofNat 12 :: acc) rest
     | _ => none)
  | acc, c :: rest => if c.toNat < 32 then none else parseJStringAux (c :: acc) rest
  | _, [] => none

/-- JSON natural-number literal: a nonempty digit run with no redundant
leading zero; a following `.`, `e` or `E` (a float) is outside this
model. -/
def parseJNat (cs : List Char) : Option (Nat × List Char) :=
  let ds := cs.takeWhile Char.isDigit
  let rest := cs.drop ds.length
  if ds.isEmpty then none
  else if 1 < ds.length && ds.head? = some '0' then none
  else
    match rest with
    | c :: _ => if c = '.' || c = 'e' || c = 'E' then none else some (natOfDigits ds, rest)
    | [] => some (natOfDigits ds, rest)

mutual

/-- One JSON value, fuelled recursive descent. -/
def parseJValue : Nat → List Char → Option (JValue × List Char)
  | 0, _ => none
  | Nat.succ fuel, cs =>
    match jsonSkipWs cs with
    | [] => none
    | '"' :: rest => (parseJStringAux [] rest).map (fun sr => (JValue.str sr.1, sr.2))
    | '{' :: rest =>
      (match jsonSkipWs rest with
       | '}' :: rest2 => some (JValue.obj [], rest2)
       | other => (parseJMembers fuel other).map (fun mr => (JValue.obj mr.1, mr.2)))
    | '[' :: rest =>
      (match jsonSkipWs rest with
       | ']' :: rest2 => some (JValue.arr [], rest2)
       | other => (parseJItems fuel other).map (fun xr => (JValue.arr xr.1, xr.2)))
    | 'n' :: 'u' :: 'l' :: 'l' :: rest => some (JValue.null, rest)
    | 't' :: 'r' :: 'u' :: 'e' :: rest => some (JValue.bool true, rest)
    | 'f' :: 'a' :: 'l' :: 's' :: 'e' :: rest => some (JValue.bool false, rest)
    | '-' :: rest => (parseJNat rest).map (fun nr => (JValue.num (-(nr.1 : Int)), nr.2))
    | other => (parseJNat other).map (fun nr => (JValue.num (nr.1 : Int), nr.2))

/-- Nonempty comma-separated member list of an object. -/
def parseJMembers : Nat → List Char → Option (List (String × JValue) × List Char)
  | 0, _ => none
  | Nat.succ fuel, cs =>
    match jsonSkipWs cs with
    | '"' :: rest =>
      match parseJStringAux [] rest with
      | none => none
      | some (k, rest2) =>
        match jsonSkipWs rest2 with
        | ':' :: rest3 =>
          match parseJValue fuel rest3 with
          | none => none
          | some (v, rest4) =>
            match jsonSkipWs rest4 with
            | ',' :: rest5 =>
              (parseJMembers fuel rest5).map (fun mr => ((k, v) :: mr.1, mr.2))
            | '}' :: rest5 => some ([(k, v)], rest5)
            | _ => none
        | _ => none
    | _ => none

/-- Nonempty comma-separated item list of an array. -/
def parseJItems : Nat → List Char → Option (List JValue × List Char)
  | 0, _ => none
  | Nat.succ fuel, cs =>
    match parseJValue fuel cs with
    | none => none
    | some (v, rest) =>
      match jsonSkipWs rest with
      | ',' :: rest2 => (parseJItems fuel rest2).map (fun xr => (v :: xr.1, xr.2))
      | ']' :: rest2 => some ([v], rest2)
      | _ => none

end

/-- Python `json.loads`: one value, then nothing but whitespace. -/
def pyJsonLoads (s : String) : Option JValue :=
  match parseJValue (2 * s.data.length + 4) s.data with
  | some (v, rest) => if (jsonSkipWs rest).isEmpty then some v else none
  | none => none

/-- Line 58: `all(32 <= ord(c) < 127 or c in "\r\n\t" for c in text)`. -/
def printableText (cs : List Char) : Bool :=
  cs.all (fun c => (32 ≤ c.toNat && c.toNat < 127) || c = '\r' || c = '\n' || c = '\t')

/-- One datagram as returned by `recvfrom`. -/
structure Datagram where
  data : List Nat
  addr : String

/-- A line (or block) printed by the receiver. -/
inductive RecvOut where
  | summary (count : Nat) (lastLen : Nat) (addr : String) : RecvOut
  | binaryDump (data : List Nat) : RecvOut
  | inputsJson (v : JValue) : RecvOut
  | text (s : String) : RecvOut
  | wrongCuh : RecvOut

/-- The summary line `got {pkt_count} packets, last {len(data)} bytes`. -/
def isSummary : RecvOut → Bool
  | RecvOut.summary _ _ _ => true
  | _ => false

/-- Receiver loop state (lines 20–22) plus everything printed so far. -/
structure RecvState where
  last_print : ℚ
  last_pkt : Option Datagram
  pkt_count : Nat
  output : List RecvOut

/-- Whether the classification of a printed payload completes without an
uncaught exception: a payload that is valid JSON but not an object with
an `"inputs"` member raises `TypeError`/`KeyError` at line 48, which the
`except (ValueError, json.JSONDecodeError)` clause does not catch. -/
def classify_ok (d : Datagram) : Bool :=
  match utf8Decode d.data with
  | none => true
  | some cs =>
    match pyJsonLoads (String.mk cs) with
    | some (JValue.obj m) => (jGet m "inputs").isSome
    | some _ => false
    | none => true

/-- One iteration of the receiver loop (lines 24–65): maybe receive one
datagram (`none` = `socket.timeout`), then print/reset if a packet is
pending and the interval has elapsed.  `Except.error` is the state at the
moment an uncaught exception leaves the loop (via the `finally`). -/
def recvIter (s : RecvState) (incoming : Option Datagram) (now : ℚ) :
    Except RecvState RecvState :=
  let s :=
    match incoming with
    | some d => { s with last_pkt := some d, pkt_count := s.pkt_count + 1 }
    | none => s
  match s.last_pkt with
  | none => Except.ok s
  | some d =>
    if 1 ≤ now - s.last_print then
      let s := { s with output := s.output ++ [RecvOut.summary s.pkt_count d.data.length d.addr] }
      match utf8Decode d.data with
      | none =>
        Except.ok { s with
          output := s.output ++ [RecvOut.binaryDump d.data]
          last_print := now, last_pkt := none, pkt_count := 0 }
      | some cs =>
        match pyJsonLoads (String.mk cs) with
        | some (JValue.obj m) =>
          (match jGet m "inputs" with
           | some iv =>
             Except.ok { s with
               output := s.output ++ [RecvOut.inputsJson iv]
               last_print := now, last_pkt := none, pkt_count := 0 }
           | none => Except.error s)
        | some _ => Except.error s
        | none =>
          let line := if printableText cs then RecvOut.text (String.mk cs) else RecvOut.wrongCuh
          Except.ok { s with
            output := s.output ++ [line]
            last_print := now, last_pkt := none, pkt_count := 0 }
    else Except.ok s

/-- The receiver loop over a schedule of (received datagram?, clock)
pairs; an uncaught exception aborts the run. -/
def recvRun (s : RecvState) : List (Option Datagram × ℚ) → Except RecvState RecvState
  | [] => Except.ok s
  | (i, t) :: rest =>
    match recvIter s i t with
    | Except.ok s2 => recvRun s2 rest
    | Except.error e => Except.error e

/-! ## Derived notions used by the claims -/

/-- Process a sequence of command messages, each with its own failure
environment and source path. -/
def processSeq (cmds : List (CmdEnv × JValue × Option String)) (w : World) : World :=
  cmds.foldl (fun w c => handle_input_data c.1 c.2.1 c.2.2 w) w

/-- The command-in endpoint invariant: the live bound handles are exactly
the one referenced by `input_sock` (so there is at most one). -/
def inputHandleInv (w : World) : Prop :=
  w.liveInput = w.state.input_sock.toList

/-- Every value of a JSON object is `null`. -/
def allFieldsNull : JValue → Prop
  | JValue.obj fs => ∀ kv ∈ fs, kv.2 = JValue.null
  | _ => False

/-- Every value of a tyre sample object other than its `index` is
`null`. -/
def tyreSampleNull : JValue → Prop
  | JValue.obj fs => ∀ kv ∈ fs, kv.1 ≠ "index" → kv.2 = JValue.null
  | _ => False

/-- A world with the default endpoint configuration of lines 150–159 and
the given socket handles (`none` = disabled). -/
def demoWorld (ts is : Option Nat) : World :=
  { state :=
      { TELEMETRY_UDP_HOST := JValue.str "127.0.0.1"
        TELEMETRY_UDP_PORT := 9876
        telemetry_sock := ts
        telemetry_addr := (JValue.str "127.0.0.1", 9876)
        INPUT_UDP_HOST := JValue.str "127.0.0.1"
        INPUT_UDP_PORT := 9877
        input_sock := is
        input_addr := (JValue.str "127.0.0.1", 9877) }
    nextSock := 2
    liveInput := is.toList
    liveTelemetry := ts.toList
    events := [] }

/-- A failure-free per-call environment. -/
def demoCmdEnv : CmdEnv :=
  { createOk := fun _ => true, writeOk := true, replaceOk := true, renameOk := true }

/-- A benign tick environment: no pending commands, every provider
present, every query answering `1`, all transports healthy. -/
def demoTickEnv : TickEnv :=
  { inputFile := none
    udpPackets := []
    cmdEnv := demoCmdEnv
    providers := { tyre_info := true, car_info := true, car_stats := true,
                   input_info := true, lap_info := true, session_info := true }
    sample := fun _ _ _ => some (JValue.num 1)
    timestamp := 7
    docs := "D"
    sendOk := true
    writeOk := true
    replaceOk := true
    renameOk := true }

/-- `demoTickEnv` with the tyre provider module missing. -/
def noTyreTickEnv : TickEnv :=
  { demoTickEnv with
    providers := { tyre_info := false, car_info := true, car_stats := true,
                   input_info := true, lap_info := true, session_info := true } }

/-- A two-byte datagram decoding to the plain text `hi`. -/
def dgHiA : Datagram := { data := [104, 105], addr := "A" }

/-- A second `hi` datagram from another source. -/
def dgHiB : Datagram := { data := [104, 105], addr := "B" }

/-- A datagram whose payload is the valid JSON document `42` — it parses
but is not an object, so line 48's subscript raises an uncaught
`TypeError`. -/
def dgNum : Datagram := { data := [52, 50], addr := "A" }

/-- A block is quiet when it only appends events and none of them is a
host command or a file-system write. -/
def quietBlock (w w2 : World) : Prop :=
  ∃ es, w2.events = w.events ++ es ∧
    ∀ e ∈ es, isSendCMD e = false ∧ isFsEvent e = false

/-! ## Basic lemmas -/

theorem quietBlock_refl (w : World) : quietBlock w w :=
  ⟨[], by simp, by simp⟩

theorem quietBlock_trans {w1 w2 w3 : World} (h1 : quietBlock w1 w2)
    (h2 : quietBlock w2 w3) : quietBlock w1 w3 := by
  obtain ⟨es1, he1, hq1⟩ := h1
  obtain ⟨es2, he2, hq2⟩ := h2
  refine ⟨es1 ++ es2, by rw [he2, he1, List.append_assoc], ?_⟩
  intro e he
  rcases List.mem_append.mp he with h | h
  · exact hq1 e h
  · exact hq2 e h

theorem quietBlock_emit_log (w : World) (msg : String) :
    quietBlock w (emit w (Effect.log msg)) :=
  ⟨[Effect.log msg], rfl, by simp [isSendCMD, isFsEvent]⟩

theorem emit_state (w : World) (e : Effect) : (emit w e).state = w.state := rfl

theorem close_socket_state (w : World) (b : Bool) (h : Option Nat) :
    (close_socket w b h).state = w.state := by
  cases h <;> rfl

theorem create_udp_socket_state (env : CmdEnv) (w : World) (b : Bool) :
    (create_udp_socket env w b).2.state = w.state := by
  by_cases h : env.createOk w.nextSock <;> simp [create_udp_socket, h]

theorem applyEvent_nonfs (fs : FileSys) (e : Effect) (h : isFsEvent e = false) :
    applyEvent fs e = fs := by
  cases e <;> simp_all [isFsEvent, applyEvent]

theorem runFs_append (fs : FileSys) (a b : List Effect) :
    runFs fs (a ++ b) = runFs (runFs fs a) b :=
  List.foldl_append _ _ _ _

theorem runFs_quiet (fs : FileSys) (es : List Effect)
    (h : ∀ e ∈ es, isFsEvent e = false) : runFs fs es = fs := by
  induction es with
  | nil => rfl
  | cons e rest ih =>
    have he : isFsEvent e = false := (h e (by simp))
    show runFs (applyEvent fs e) rest = fs
    rw [applyEvent_nonfs fs e he]
    exact ih (fun x hx => h x (by simp [hx]))

theorem getFs_setFs_same (fs : FileSys) (p : String) (v : JValue) :
    getFs (setFs fs p v) p = some v := by
  simp [getFs, setFs, List.find?]

theorem filter_eq_nil_of_quiet {es : List Effect}
    (h : ∀ e ∈ es, isSendCMD e = false ∧ isFsEvent e = false) :
    es.filter isSendCMD = [] ∧ es.filter isFsEvent = [] := by
  constructor <;>
    (rw [List.filter_eq_nil_iff]; intro e he; simp [(h e he).1, (h e he).2])

theorem quietBlock_setState {w w2 : World} (h : quietBlock w w2) (st : AppState) :
    quietBlock w { w2 with state := st } := h

theorem quietBlock_emit_of {w w2 : World} (h : quietBlock w w2) (e : Effect)
    (he : isSendCMD e = false ∧ isFsEvent e = false) :
    quietBlock w (emit w2 e) := by
  obtain ⟨es, hev, hq⟩ := h
  refine ⟨es ++ [e], by simp [emit, hev], ?_⟩
  intro x hx
  rcases List.mem_append.mp hx with h | h
  · exact hq x h
  · simp at h; subst h; exact he

theorem quietBlock_close (w : World) (b : Bool) (h : Option Nat) :
    quietBlock w (close_socket w b h) := by
  cases h with
  | none => exact quietBlock_refl w
  | some id =>
    exact ⟨[Effect.sockClose id], rfl, by simp [isSendCMD, isFsEvent]⟩

theorem quietBlock_create (env : CmdEnv) (w : World) (b : Bool) :
    quietBlock w (create_udp_socket env w b).2 := by
  by_cases h : env.createOk w.nextSock
  · exact ⟨[Effect.sockCreate w.nextSock b true], by simp [create_udp_socket, h],
      by simp [isSendCMD, isFsEvent]⟩
  · exact ⟨[Effect.sockCreate w.nextSock b false, Effect.log "_create_udp_socket error"],
      by simp [create_udp_socket, h], by simp [isSendCMD, isFsEvent]⟩

theorem quiet_telemetry_target_block (cmd : List (String × JValue)) (w : World) :
    quietBlock w (telemetry_target_block cmd w) := by
  unfold telemetry_target_block
  dsimp only
  split
  · split
    · exact quietBlock_emit_of (quietBlock_setState (quietBlock_refl w) _) _ ⟨rfl, rfl⟩
    · exact quietBlock_emit_log w _
  · exact quietBlock_refl w

theorem quiet_use_udp_telemetry_block (env : CmdEnv) (cmd : List (String × JValue))
    (w : World) : quietBlock w (use_udp_telemetry_block env cmd w) := by
  unfold use_udp_telemetry_block
  dsimp only
  split
  · split
    · exact quietBlock_emit_of
        (quietBlock_setState (quietBlock_close w false w.state.telemetry_sock) _) _ ⟨rfl, rfl⟩
    · split
      · exact quietBlock_emit_of
          (quietBlock_setState (quietBlock_create env w false) _) _ ⟨rfl, rfl⟩
      · exact quietBlock_refl w
  · exact quietBlock_refl w

theorem quiet_input_rebind_block (env : CmdEnv) (cmd : List (String × JValue))
    (w : World) : quietBlock w (input_rebind_block env cmd w) := by
  unfold input_rebind_block
  dsimp only
  split
  · split
    · refine quietBlock_emit_of (quietBlock_setState ?_ _) _ ⟨rfl, rfl⟩
      refine quietBlock_trans ?_ (quietBlock_create env _ true)
      split
      · exact quietBlock_setState
          (quietBlock_close _ true _) _
      · exact quietBlock_setState (quietBlock_refl w) _
    · exact quietBlock_emit_log w _
  · exact quietBlock_refl w

theorem quiet_use_input_udp_block (env : CmdEnv) (cmd : List (String × JValue))
    (w : World) : quietBlock w (use_input_udp_block env cmd w) := by
  unfold use_input_udp_block
  dsimp only
  split
  · split
    · exact quietBlock_emit_of
        (quietBlock_setState (quietBlock_close w true w.state.input_sock) _) _ ⟨rfl, rfl⟩
    · split
      · exact quietBlock_emit_of
          (quietBlock_setState (quietBlock_create env w true) _) _ ⟨rfl, rfl⟩
      · exact quietBlock_refl w
  · exact quietBlock_refl w

theorem quiet_four_blocks (env : CmdEnv) (m : List (String × JValue)) (w : World) :
    quietBlock w
      (use_input_udp_block env m
        (input_rebind_block env m
          (use_udp_telemetry_block env m
            (telemetry_target_block m w)))) :=
  quietBlock_trans
    (quietBlock_trans
      (quietBlock_trans (quiet_telemetry_target_block m w)
        (quiet_use_udp_telemetry_block env m _))
      (quiet_input_rebind_block env m _))
    (quiet_use_input_udp_block env m _)

theorem find_map_set_self (m : List (String × JValue)) (k : String) (v : JValue) :
    (m.map (fun kv => if kv.1 == k then (k, v) else kv)).find? (fun kv => kv.1 == k)
      = if jMem m k then some (k, v) else none := by
  induction m with
  | nil => simp [jMem, jGet]
  | cons kv rest ih =>
    by_cases h : (kv.1 == k) = true
    · have hm : jMem (kv :: rest) k = true := by
        simp [jMem, jGet, List.find?_cons, h]
      simp only [List.map_cons, if_pos h, hm, if_true]
      have hk : ((k, v).1 == k) = true := by simp
      simp [List.find?_cons, hk]
    · have hf : (kv.1 == k) = false := by simpa using h
      have hm : jMem (kv :: rest) k = jMem rest k := by
        simp [jMem, jGet, List.find?_cons, hf]
      simp only [List.map_cons, if_neg h, hm]
      simp only [List.find?_cons, hf]
      exact ih

theorem find_map_set_other (m : List (String × JValue)) (k k2 : String) (v : JValue)
    (hne : k2 ≠ k) :
    (m.map (fun kv => if kv.1 == k then (k, v) else kv)).find? (fun kv => kv.1 == k2)
      = m.find? (fun kv => kv.1 == k2) := by
  induction m with
  | nil => simp
  | cons kv rest ih =>
    by_cases h : (kv.1 == k) = true
    · have h1 : kv.1 = k := by simpa using h
      have h2 : ((k, v).1 == k2) = false := by
        simp only [beq_eq_false_iff_ne]; exact fun e => hne e.symm
      have h3 : (kv.1 == k2) = false := by
        simp only [h1, beq_eq_false_iff_ne]; exact fun e => hne e.symm
      simp only [List.map_cons, if_pos h, List.find?_cons, h2, h3]
      exact ih
    · simp only [List.map_cons, if_neg h, List.find?_cons]
      cases h4 : (kv.1 == k2) with
      | true => rfl
      | false => exact ih

theorem jGet_jSet_self (m : List (String × JValue)) (k : String) (v : JValue) :
    jGet (jSet m k v) k = some v := by
  unfold jSet
  by_cases hm : jMem m k
  · simp only [hm, if_true, jGet]
    rw [find_map_set_self m k v]
    simp [hm]
  · simp only [hm, Bool.false_eq_true, if_false, jGet, List.find?_append]
    have h1 : m.find? (fun kv => kv.1 == k) = none := by
      by_contra hcon
      rcases Option.ne_none_iff_exists.mp hcon with ⟨x, hx⟩
      simp [jMem, jGet, hx.symm] at hm
    simp [h1, List.find?_cons]

theorem jGet_jSet_other (m : List (String × JValue)) (k k2 : String) (v : JValue)
    (hne : k2 ≠ k) : jGet (jSet m k v) k2 = jGet m k2 := by
  unfold jSet
  by_cases hm : jMem m k
  · simp only [hm, if_true, jGet]
    rw [find_map_set_other m k k2 v hne]
  · simp only [hm, Bool.false_eq_true, if_false, jGet, List.find?_append]
    have h2 : ((k, v).1 == k2) = false := by
      simp only [beq_eq_false_iff_ne]; exact fun e => hne e.symm
    have h3 : List.find? (fun kv => kv.1 == k2) [(k, v)] = none := by
      simp [List.find?_cons, h2]
    rw [h3]
    cases List.find? (fun kv => kv.1 == k2) m <;> rfl

theorem telemetry_target_block_frame (cmd : List (String × JValue)) (w : World) :
    (telemetry_target_block cmd w).state.INPUT_UDP_HOST = w.state.INPUT_UDP_HOST ∧
    (telemetry_target_block cmd w).state.INPUT_UDP_PORT = w.state.INPUT_UDP_PORT ∧
    (telemetry_target_block cmd w).state.input_addr = w.state.input_addr ∧
    (telemetry_target_block cmd w).state.input_sock = w.state.input_sock ∧
    (telemetry_target_block cmd w).state.telemetry_sock = w.state.telemetry_sock ∧
    (telemetry_target_block cmd w).liveInput = w.liveInput ∧
    (telemetry_target_block cmd w).liveTelemetry = w.liveTelemetry ∧
    (telemetry_target_block cmd w).nextSock = w.nextSock := by
  unfold telemetry_target_block
  dsimp only
  split
  · split <;> simp [emit]
  · simp

theorem use_udp_telemetry_block_input_frame (env : CmdEnv)
    (cmd : List (String × JValue)) (w : World) :
    (use_udp_telemetry_block env cmd w).state.INPUT_UDP_HOST = w.state.INPUT_UDP_HOST ∧
    (use_udp_telemetry_block env cmd w).state.INPUT_UDP_PORT = w.state.INPUT_UDP_PORT ∧
    (use_udp_telemetry_block env cmd w).state.input_addr = w.state.input_addr ∧
    (use_udp_telemetry_block env cmd w).state.input_sock = w.state.input_sock ∧
    (use_udp_telemetry_block env cmd w).liveInput = w.liveInput := by
  unfold use_udp_telemetry_block
  dsimp only
  split
  · split
    · rcases hs : w.state.telemetry_sock with _ | id <;>
        simp [hs, close_socket, emit]
    · split
      · by_cases hc : env.createOk w.nextSock <;> simp [create_udp_socket, emit, hc]
      · simp
  · simp

theorem reset_block_frame (env : CmdEnv) (cmd : List (String × JValue))
    (path : Option String) (w : World) :
    (reset_block env cmd path w).state = w.state ∧
    (reset_block env cmd path w).nextSock = w.nextSock ∧
    (reset_block env cmd path w).liveInput = w.liveInput ∧
    (reset_block env cmd path w).liveTelemetry = w.liveTelemetry := by
  unfold reset_block
  dsimp only
  split
  · split
    · by_cases hw : env.writeOk <;> by_cases hr : env.replaceOk <;>
        by_cases hn : env.renameOk <;> simp [emit, hw, hr, hn]
    · simp
  · simp

theorem inv_telemetry_target_block (cmd : List (String × JValue)) (w : World)
    (h : inputHandleInv w) : inputHandleInv (telemetry_target_block cmd w) := by
  unfold inputHandleInv at h ⊢
  obtain ⟨-, -, -, h4, -, h6, -, -⟩ := telemetry_target_block_frame cmd w
  rw [h4, h6]; exact h

theorem inv_use_udp_telemetry_block (env : CmdEnv) (cmd : List (String × JValue))
    (w : World) (h : inputHandleInv w) :
    inputHandleInv (use_udp_telemetry_block env cmd w) := by
  unfold inputHandleInv at h ⊢
  obtain ⟨-, -, -, h4, h5⟩ := use_udp_telemetry_block_input_frame env cmd w
  rw [h4, h5]; exact h

theorem inv_reset_block (env : CmdEnv) (cmd : List (String × JValue))
    (path : Option String) (w : World) (h : inputHandleInv w) :
    inputHandleInv (reset_block env cmd path w) := by
  unfold inputHandleInv at h ⊢
  obtain ⟨h1, -, h3, -⟩ := reset_block_frame env cmd path w
  rw [h1, h3]; exact h

theorem inv_input_rebind_block (env : CmdEnv) (cmd : List (String × JValue))
    (w : World) (hinv : inputHandleInv w) :
    inputHandleInv (input_rebind_block env cmd w) := by
  unfold inputHandleInv at hinv ⊢
  unfold input_rebind_block
  dsimp only
  split
  · split
    · rcases hs : w.state.input_sock with _ | id
      · simp only [hs, Option.isSome_none, Bool.false_eq_true, if_false]
        by_cases hc : env.createOk w.nextSock <;>
          simp [create_udp_socket, emit, hc, hinv, hs]
      · simp only [hs, Option.isSome_some, if_true]
        by_cases hc : env.createOk w.nextSock <;>
          simp [hs, close_socket, create_udp_socket, emit, hc, hinv]
    · exact hinv
  · exact hinv

theorem inv_use_input_udp_block (env : CmdEnv) (cmd : List (String × JValue))
    (w : World) (hinv : inputHandleInv w) :
    inputHandleInv (use_input_udp_block env cmd w) := by
  unfold inputHandleInv at hinv ⊢
  unfold use_input_udp_block
  dsimp only
  split
  · rcases hs : w.state.input_sock with _ | id <;>
      by_cases hu : pyTruthy (jGetD cmd "use_input_udp" JValue.null) <;>
      by_cases hc : env.createOk w.nextSock <;>
      simp [hs, hu, hc, close_socket, create_udp_socket, emit, hinv]
  · exact hinv

theorem inv_handle_input_data (env : CmdEnv) (cmd : JValue) (path : Option String)
    (w : World) (hinv : inputHandleInv w) :
    inputHandleInv (handle_input_data env cmd path w) := by
  unfold handle_input_data
  match cmd with
  | JValue.obj m =>
    exact inv_reset_block _ _ _ _
      (inv_use_input_udp_block _ _ _
        (inv_input_rebind_block _ _ _
          (inv_use_udp_telemetry_block _ _ _
            (inv_telemetry_target_block _ _ hinv))))
  | JValue.null => exact hinv
  | JValue.bool b => exact hinv
  | JValue.num n => exact hinv
  | JValue.str s => exact hinv
  | JValue.arr xs => exact hinv

theorem inv_processSeq (cmds : List (CmdEnv × JValue × Option String)) (w : World)
    (hinv : inputHandleInv w) : inputHandleInv (processSeq cmds w) := by
  induction cmds generalizing w with
  | nil => exact hinv
  | cons c rest ih =>
    exact ih _ (inv_handle_input_data c.1 c.2.1 c.2.2 w hinv)

theorem reset_block_run_replace (env : CmdEnv) (cmd : List (String × JValue))
    (p : String) (w : World) (hres : isPyTrue (jGet cmd "reset") = true)
    (hw : env.writeOk = true) (hrep : env.replaceOk = true) :
    reset_block env cmd (some p) w =
      { w with events := w.events ++
          [Effect.sendCMD 68, Effect.sendCMD 69,
           Effect.writeTmp (p ++ ".tmp") (JValue.obj (jSet cmd "reset" (JValue.bool false))),
           Effect.replaceFile (p ++ ".tmp") p] } := by
  unfold reset_block
  dsimp only
  simp [hres, hw, hrep, emit]

theorem reset_block_run_rename (env : CmdEnv) (cmd : List (String × JValue))
    (p : String) (w : World) (hres : isPyTrue (jGet cmd "reset") = true)
    (hw : env.writeOk = true) (hrep : env.replaceOk = false)
    (hren : env.renameOk = true) :
    reset_block env cmd (some p) w =
      { w with events := w.events ++
          [Effect.sendCMD 68, Effect.sendCMD 69,
           Effect.writeTmp (p ++ ".tmp") (JValue.obj (jSet cmd "reset" (JValue.bool false))),
           Effect.renameFile (p ++ ".tmp") p] } := by
  unfold reset_block
  dsimp only
  simp [hres, hw, hrep, hren, emit]

theorem runFs_write_replace (fs : FileSys) (tmp p : String) (c : JValue) :
    getFs (runFs fs [Effect.writeTmp tmp c, Effect.replaceFile tmp p]) p = some c := by
  show getFs (applyEvent (applyEvent fs (Effect.writeTmp tmp c)) (Effect.replaceFile tmp p)) p = some c
  simp only [applyEvent, getFs_setFs_same]

theorem runFs_write_rename (fs : FileSys) (tmp p : String) (c : JValue) :
    getFs (runFs fs [Effect.writeTmp tmp c, Effect.renameFile tmp p]) p = some c := by
  show getFs (applyEvent (applyEvent fs (Effect.writeTmp tmp c)) (Effect.renameFile tmp p)) p = some c
  simp only [applyEvent, getFs_setFs_same]

/-- Core of the one-shot reset property: for any command object whose
`reset` is `true` and a backing-file path, the call appends a trace whose
host commands are exactly 68 then 69 and whose file-system events are
exactly the temp write of the rewritten document followed by its atomic
replace (or rename when replace fails), leaving the rewritten document at
the path. -/
theorem handle_reset_events (env : CmdEnv) (m : List (String × JValue))
    (p : String) (w : World) (fs : FileSys)
    (hres : isPyTrue (jGet m "reset") = true) (hw : env.writeOk = true)
    (hmode : env.replaceOk = true ∨ (env.replaceOk = false ∧ env.renameOk = true)) :
    ∃ es, (handle_input_data env (JValue.obj m) (some p) w).events = w.events ++ es ∧
      es.filter isSendCMD = [Effect.sendCMD 68, Effect.sendCMD 69] ∧
      ((env.replaceOk = true →
        es.filter isFsEvent =
          [Effect.writeTmp (p ++ ".tmp") (JValue.obj (jSet m "reset" (JValue.bool false))),
           Effect.replaceFile (p ++ ".tmp") p]) ∧
       (env.replaceOk = false →
        es.filter isFsEvent =
          [Effect.writeTmp (p ++ ".tmp") (JValue.obj (jSet m "reset" (JValue.bool false))),
           Effect.renameFile (p ++ ".tmp") p])) ∧
      getFs (runFs fs es) p = some (JValue.obj (jSet m "reset" (JValue.bool false))) := by
  obtain ⟨es1, he1, hq1⟩ := quiet_four_blocks env m w
  have hquiet := filter_eq_nil_of_quiet hq1
  have hfs1 : runFs fs es1 = fs :=
    runFs_quiet fs es1 (fun e he => (hq1 e he).2)
  show ∃ es, (reset_block env m (some p)
      (use_input_udp_block env m
        (input_rebind_block env m
          (use_udp_telemetry_block env m (telemetry_target_block m w))))).events
      = w.events ++ es ∧ _
  rcases hmode with hrep | ⟨hrep, hren⟩
  · rw [reset_block_run_replace env m p _ hres hw hrep]
    refine ⟨es1 ++
      [Effect.sendCMD 68, Effect.sendCMD 69,
       Effect.writeTmp (p ++ ".tmp") (JValue.obj (jSet m "reset" (JValue.bool false))),
       Effect.replaceFile (p ++ ".tmp") p], ?_, ?_, ⟨fun _ => ?_, fun hcon => ?_⟩, ?_⟩
    · show (use_input_udp_block env m
          (input_rebind_block env m
            (use_udp_telemetry_block env m (telemetry_target_block m w)))).events ++ _ = _
      rw [he1, List.append_assoc]
    · rw [List.filter_append, hquiet.1]; rfl
    · rw [List.filter_append, hquiet.2]; rfl
    · rw [hrep] at hcon; exact absurd hcon (by simp)
    · rw [runFs_append, hfs1]
      show getFs (runFs (runFs fs [Effect.sendCMD 68, Effect.sendCMD 69])
        [Effect.writeTmp (p ++ ".tmp") _, Effect.replaceFile (p ++ ".tmp") p]) p = _
      exact runFs_write_replace _ _ _ _
  · rw [reset_block_run_rename env m p _ hres hw hrep hren]
    refine ⟨es1 ++
      [Effect.sendCMD 68, Effect.sendCMD 69,
       Effect.writeTmp (p ++ ".tmp") (JValue.obj (jSet m "reset" (JValue.bool false))),
       Effect.renameFile (p ++ ".tmp") p], ?_, ?_, ⟨fun hcon => ?_, fun _ => ?_⟩, ?_⟩
    · show (use_input_udp_block env m
          (input_rebind_block env m
            (use_udp_telemetry_block env m (telemetry_target_block m w)))).events ++ _ = _
      rw [he1, List.append_assoc]
    · rw [List.filter_append, hquiet.1]; rfl
    · rw [hrep] at hcon; exact absurd hcon (by simp)
    · rw [List.filter_append, hquiet.2]; rfl
    · rw [runFs_append, hfs1]
      show getFs (runFs (runFs fs [Effect.sendCMD 68, Effect.sendCMD 69])
        [Effect.writeTmp (p ++ ".tmp") _, Effect.renameFile (p ++ ".tmp") p]) p = _
      exact runFs_write_rename _ _ _ _

theorem check_input_file_nocmd (env : TickEnv) (w : World)
    (hf : env.inputFile = none) (hp : env.udpPackets = []) :
    check_input_file env w = w := by
  unfold check_input_file
  rw [hf, hp]
  dsimp only
  cases w.state.input_sock <;> rfl

theorem acUpdate_publish (env : TickEnv) (w : World)
    (ht : env.providers.tyre_info = true) (hl : label_loop_ok env = true) :
    acUpdate env w = publish_telemetry env (check_input_file env w) := by
  unfold acUpdate
  simp [ht, hl]

theorem publish_send (env : TickEnv) (w : World) (h : Nat)
    (hs : w.state.telemetry_sock = some h) (hok : env.sendOk = true) :
    publish_telemetry env w =
      emit w (Effect.sendTo h (payloadJson env) w.state.telemetry_addr) := by
  unfold publish_telemetry
  rw [hs]
  simp [hok]

theorem publish_fallback (env : TickEnv) (w : World) (fs : FileSys)
    (hfail : w.state.telemetry_sock = none ∨ env.sendOk = false)
    (hw : env.writeOk = true) (hrep : env.replaceOk = true) :
    ∃ es, (publish_telemetry env w).events = w.events ++ es ∧
      es.filter isFsEvent =
        [Effect.writeTmp (telemetryPath env ++ ".tmp") (payloadJson env),
         Effect.replaceFile (telemetryPath env ++ ".tmp") (telemetryPath env)] ∧
      getFs (runFs fs es) (telemetryPath env) = some (payloadJson env) := by
  have hfb : ∀ w2 : World, ∃ es,
      (fallback_write env (payloadJson env) w2).events = w2.events ++ es ∧
      es.filter isFsEvent =
        [Effect.writeTmp (telemetryPath env ++ ".tmp") (payloadJson env),
         Effect.replaceFile (telemetryPath env ++ ".tmp") (telemetryPath env)] ∧
      getFs (runFs fs es) (telemetryPath env) = some (payloadJson env) := by
    intro w2
    refine ⟨[Effect.writeTmp (telemetryPath env ++ ".tmp") (payloadJson env),
             Effect.replaceFile (telemetryPath env ++ ".tmp") (telemetryPath env)],
            ?_, rfl, runFs_write_replace fs _ _ _⟩
    unfold fallback_write
    simp [hw, hrep, emit]
  rcases hso : w.state.telemetry_sock with _ | h
  · unfold publish_telemetry
    rw [hso]
    exact hfb w
  · have hok : env.sendOk = false := by
      rcases hfail with hc | hc
      · rw [hso] at hc; exact absurd hc (by simp)
      · exact hc
    unfold publish_telemetry
    rw [hso]
    simp only [hok, Bool.false_eq_true, if_false]
    obtain ⟨es, he, hf2, hr⟩ :=
      hfb (emit w (Effect.log "Error sending telemetry via UDP"))
    refine ⟨Effect.log "Error sending telemetry via UDP" :: es, ?_, by exact hf2, ?_⟩
    · rw [he]; simp [emit]
    · show getFs (runFs (applyEvent fs (Effect.log "Error sending telemetry via UDP")) es) _ = _
      exact hr

theorem safe_call_congr (e1 e2 : TickEnv) (m : ACMod)
    (hAv : moduleAvailable e1.providers m = moduleAvailable e2.providers m)
    (hS : ∀ f a, e1.sample m f a = e2.sample m f a) :
    ∀ f a, safe_call e1 m f a = safe_call e2 m f a := by
  intro f a
  unfold safe_call
  rw [hAv, hS]

theorem group_congr (e1 e2 : TickEnv) (m : ACMod)
    (hAv : moduleAvailable e1.providers m = moduleAvailable e2.providers m)
    (hS : ∀ f a, e1.sample m f a = e2.sample m f a) :
    group e1 m = group e2 m := by
  have hsc := safe_call_congr e1 e2 m hAv hS
  cases m <;>
    simp only [group, tyres_group, car_group, stats_group, inputs_group,
      lap_group, session_group, hsc]

theorem group_null_of_missing (env : TickEnv) (m : ACMod)
    (hm : m ≠ ACMod.tyre_info)
    (hav : moduleAvailable env.providers m = false) :
    allFieldsNull (group env m) := by
  cases m
  · exact absurd rfl hm
  all_goals
    simp [group, car_group, stats_group, inputs_group, lap_group, session_group,
      allFieldsNull, safe_call, moduleAvailable] at hav ⊢
  all_goals simp [hav]

theorem recvRun_append (s : RecvState) (a b : List (Option Datagram × ℚ)) :
    recvRun s (a ++ b) =
      match recvRun s a with
      | Except.ok s2 => recvRun s2 b
      | Except.error e => Except.error e := by
  induction a generalizing s with
  | nil => simp [recvRun]
  | cons x rest ih =>
    obtain ⟨i, t⟩ := x
    show recvRun s ((i, t) :: (rest ++ b)) = _
    rcases h : recvIter s i t with s2 | e
    all_goals simp only [recvRun, h]
    all_goals first
      | rfl
      | exact ih _

theorem recvIter_accum (s : RecvState) (d : Datagram) (t : ℚ)
    (ht : t - s.last_print < 1) :
    recvIter s (some d) t =
      Except.ok { s with last_pkt := some d, pkt_count := s.pkt_count + 1 } := by
  unfold recvIter
  dsimp only
  rw [if_neg (by push_neg; exact ht)]

theorem recvRun_accumulate (lp : ℚ) (pkts : List (Datagram × ℚ)) :
    ∀ s : RecvState, s.last_print = lp → (∀ p ∈ pkts, p.2 - lp < 1) →
    recvRun s (pkts.map (fun p => (some p.1, p.2))) =
      Except.ok
        { s with
          last_pkt := (pkts.getLast?.map (fun p => some p.1)).getD s.last_pkt
          pkt_count := s.pkt_count + pkts.length } := by
  induction pkts with
  | nil => intro s _ _; simp [recvRun]
  | cons p rest ih =>
    intro s hlp hlt
    obtain ⟨d, t⟩ := p
    show (match recvIter s (some d) t with
          | Except.ok s2 => recvRun s2 (rest.map (fun p : Datagram × ℚ => (some p.1, p.2)))
          | Except.error e => Except.error e) = _
    rw [recvIter_accum s d t (by rw [hlp]; exact hlt (d, t) (by simp))]
    dsimp only
    rw [ih { s with last_pkt := some d, pkt_count := s.pkt_count + 1 } hlp
      (fun q hq => hlt q (by simp [hq]))]
    cases hrl : rest.getLast? with
    | none =>
      have : rest = [] := List.getLast?_eq_none_iff.mp hrl
      subst this
      simp
    | some q =>
      have h1 : ((d, t) :: rest).getLast? = some q := by
        cases rest with
        | nil => simp at hrl
        | cons r rs => rw [List.getLast?_cons_cons, hrl]
      simp [hrl, h1]
      omega

theorem recvIter_print (s : RecvState) (d : Datagram) (T : ℚ)
    (hpkt : s.last_pkt = some d) (hT : 1 ≤ T - s.last_print)
    (hc : classify_ok d = true) :
    ∃ s2, recvIter s none T = Except.ok s2 ∧ s2.pkt_count = 0 ∧ s2.last_pkt = none ∧
      s2.output.filter isSummary =
        s.output.filter isSummary ++
          [RecvOut.summary s.pkt_count d.data.length d.addr] := by
  unfold recvIter
  unfold classify_ok at hc
  dsimp only
  rw [hpkt]
  dsimp only
  rw [if_pos hT]
  rcases hdec : utf8Decode d.data with _ | cs
  · exact ⟨_, rfl, rfl, rfl, by simp [List.filter_append, isSummary]⟩
  · rw [hdec] at hc
    dsimp only at hc ⊢
    rcases hjson : pyJsonLoads (String.mk cs) with _ | v
    · dsimp only
      by_cases hp : printableText cs <;>
        exact ⟨_, rfl, rfl, rfl, by simp [hp, List.filter_append, isSummary]⟩
    · rw [hjson] at hc
      rcases v with _ | b | n | st | xs | mfields
      · simp at hc
      · simp at hc
      · simp at hc
      · simp at hc
      · simp at hc
      · dsimp only at hc ⊢
        rcases hg : jGet mfields "inputs" with _ | iv
        · rw [hg] at hc; simp at hc
        · dsimp only
          exact ⟨_, rfl, rfl, rfl, by simp [List.filter_append, isSummary]⟩

/-! ## Claim theorems -/

/-- C8 (amended): for N ≥ 1 datagrams arriving within one print interval,
the receiver prints exactly one summary line reporting N as the packet
count and the last payload's size (never N lines), and — provided the
last payload is not valid JSON lacking an `inputs` member — afterwards
`pkt_count` is 0 and `last_pkt` is cleared; if no datagram arrived since
the last print, nothing is printed for the interval. -/
theorem receiver_aggregates_once_per_interval
    (lp T : ℚ) (pkts : List (Datagram × ℚ))
    (hlt : ∀ p ∈ pkts, p.2 - lp < 1) (hT : 1 ≤ T - lp) :
    (pkts = [] →
      recvRun ⟨lp, none, 0, []⟩
          (pkts.map (fun p => (some p.1, p.2)) ++ [(none, T)]) =
        Except.ok ⟨lp, none, 0, []⟩) ∧
    ∀ pl, pkts.getLast? = some pl → classify_ok pl.1 = true →
      ∃ s2, recvRun ⟨lp, none, 0, []⟩
          (pkts.map (fun p => (some p.1, p.2)) ++ [(none, T)]) = Except.ok s2 ∧
        s2.pkt_count = 0 ∧ s2.last_pkt = none ∧
        s2.output.filter isSummary =
          [RecvOut.summary pkts.length pl.1.data.length pl.1.addr] := by
  constructor
  · intro h
    subst h
    simp [recvRun, recvIter]
  · intro pl hlast hcls
    rw [recvRun_append]
    rw [recvRun_accumulate lp pkts ⟨lp, none, 0, []⟩ rfl hlt]
    rw [hlast]
    simp only [Nat.zero_add, Option.map_some, Option.getD_some]
    obtain ⟨s2, hiter, h0, hnone, hout⟩ :=
      recvIter_print
        { last_print := lp, last_pkt := some pl.1, pkt_count := pkts.length,
          output := [] } pl.1 T rfl hT hcls
    refine ⟨s2, ?_, h0, hnone, ?_⟩
    · simp [recvRun, hiter]
    · rw [hout]
      simp

/-- C8 witness: two `hi` datagrams inside one interval, then an idle poll
after the interval: one summary line `got 2 packets, last 2 bytes`, and
the counters are reset. -/
theorem receiver_aggregates_once_per_interval_witness :
    ∃ s2, recvRun ⟨0, none, 0, []⟩
        [(some dgHiA, 1/2), (some dgHiB, 3/4), (none, 1)] = Except.ok s2 ∧
      s2.pkt_count = 0 ∧ s2.last_pkt = none ∧
      s2.output.filter isSummary = [RecvOut.summary 2 2 "B"] :=
  (receiver_aggregates_once_per_interval 0 1 [(dgHiA, 1/2), (dgHiB, 3/4)]
      (by
        intro p hp
        simp only [List.mem_cons, List.mem_singleton] at hp
        rcases hp with rfl | rfl | h
        · norm_num
        · norm_num
        · simp at h)
      (by norm_num)).2
    (dgHiB, 3/4) rfl rfl

/-- C8 counterexample: a single datagram whose payload is the valid JSON
document `42`.  The summary line is printed, but extracting `"inputs"`
raises an uncaught `TypeError`, so the loop terminates with
`pkt_count = 1` and `last_pkt` still set — the reset the claim promises
never happens. -/
theorem receiver_json_without_inputs_crashes :
    recvRun ⟨0, none, 0, []⟩ [(some dgNum, 1)] =
      Except.error ⟨0, some dgNum, 1, [RecvOut.summary 1 2 "A"]⟩ := by
  have h : recvIter ⟨0, none, 0, []⟩ (some dgNum) 1 =
      Except.error ⟨0, some dgNum, 1, [RecvOut.summary 1 2 "A"]⟩ := by
    unfold recvIter
    dsimp only
    rw [if_pos (by norm_num)]
    rfl
  show (match recvIter ⟨0, none, 0, []⟩ (some dgNum) 1 with
        | Except.ok s2 => recvRun s2 []
        | Except.error e => Except.error e) = _
  rw [h]

/-- C2: a `reset: true` command message read from a backing file fires
exactly two sequential host commands (68 then 69, never propagating
errors), and the file is rewritten with `reset` set to `false` by
serializing to the sibling temp file and atomically replacing the target
(plain rename as fallback when replace fails); afterwards the file on
disk holds the rewritten document. -/
theorem reset_oneshot_semantics (envc : CmdEnv) (m : List (String × JValue))
    (p : String) (w : World) (fs : FileSys)
    (hres : jGet m "reset" = some (JValue.bool true)) (hw : envc.writeOk = true)
    (hmode : envc.replaceOk = true ∨ (envc.replaceOk = false ∧ envc.renameOk = true)) :
    ∃ es, (handle_input_data envc (JValue.obj m) (some p) w).events = w.events ++ es ∧
      es.filter isSendCMD = [Effect.sendCMD 68, Effect.sendCMD 69] ∧
      ((envc.replaceOk = true →
        es.filter isFsEvent =
          [Effect.writeTmp (p ++ ".tmp") (JValue.obj (jSet m "reset" (JValue.bool false))),
           Effect.replaceFile (p ++ ".tmp") p]) ∧
       (envc.replaceOk = false →
        es.filter isFsEvent =
          [Effect.writeTmp (p ++ ".tmp") (JValue.obj (jSet m "reset" (JValue.bool false))),
           Effect.renameFile (p ++ ".tmp") p])) ∧
      getFs (runFs fs es) p = some (JValue.obj (jSet m "reset" (JValue.bool false))) ∧
      jGet (jSet m "reset" (JValue.bool false)) "reset" = some (JValue.bool false) := by
  obtain ⟨es, he, hcmd, hfsev, hget⟩ :=
    handle_reset_events envc m p w fs (by rw [hres]; rfl) hw hmode
  exact ⟨es, he, hcmd, hfsev, hget, jGet_jSet_self m "reset" (JValue.bool false)⟩

/-- C2 witness: the message `{"reset": true}` processed from file `F` on
the default world, with a failure-free environment. -/
theorem reset_oneshot_semantics_witness :
    ∃ es, (handle_input_data demoCmdEnv
        (JValue.obj [("reset", JValue.bool true)]) (some "F")
        (demoWorld (some 0) (some 1))).events =
          (demoWorld (some 0) (some 1)).events ++ es ∧
      es.filter isSendCMD = [Effect.sendCMD 68, Effect.sendCMD 69] ∧
      ((demoCmdEnv.replaceOk = true →
        es.filter isFsEvent =
          [Effect.writeTmp ("F" ++ ".tmp")
             (JValue.obj (jSet [("reset", JValue.bool true)] "reset" (JValue.bool false))),
           Effect.replaceFile ("F" ++ ".tmp") "F"]) ∧
       (demoCmdEnv.replaceOk = false →
        es.filter isFsEvent =
          [Effect.writeTmp ("F" ++ ".tmp")
             (JValue.obj (jSet [("reset", JValue.bool true)] "reset" (JValue.bool false))),
           Effect.renameFile ("F" ++ ".tmp") "F"])) ∧
      getFs (runFs [] es) "F" =
        some (JValue.obj (jSet [("reset", JValue.bool true)] "reset" (JValue.bool false))) ∧
      jGet (jSet [("reset", JValue.bool true)] "reset" (JValue.bool false)) "reset" =
        some (JValue.bool false) :=
  reset_oneshot_semantics demoCmdEnv [("reset", JValue.bool true)] "F"
    (demoWorld (some 0) (some 1)) [] rfl rfl (Or.inl rfl)

/-- C9: the rewritten command file holds the entire original mapping with
only the `reset` key changed to `false`; every other key (recognized or
not) keeps its original value. -/
theorem reset_rewrite_preserves_other_keys (envc : CmdEnv)
    (m : List (String × JValue)) (p : String) (w : World) (fs : FileSys)
    (hres : jGet m "reset" = some (JValue.bool true))
    (hw : envc.writeOk = true) (hrep : envc.replaceOk = true) :
    ∃ es c, (handle_input_data envc (JValue.obj m) (some p) w).events = w.events ++ es ∧
      getFs (runFs fs es) p = some (JValue.obj c) ∧
      jGet c "reset" = some (JValue.bool false) ∧
      ∀ k, k ≠ "reset" → jGet c k = jGet m k := by
  obtain ⟨es, he, _, _, hget⟩ :=
    handle_reset_events envc m p w fs (by rw [hres]; rfl) hw (Or.inl hrep)
  exact ⟨es, jSet m "reset" (JValue.bool false), he, hget,
    jGet_jSet_self m "reset" (JValue.bool false),
    fun k hk => jGet_jSet_other m "reset" k (JValue.bool false) hk⟩

/-- C9 witness: `{"reset": true, "extra": "keep", "use_udp_telemetry": true}`
is rewritten with `reset` false, `extra` and `use_udp_telemetry`
untouched. -/
theorem reset_rewrite_preserves_other_keys_witness :
    (∃ es c, (handle_input_data demoCmdEnv
        (JValue.obj [("reset", JValue.bool true), ("extra", JValue.str "keep"),
                     ("use_udp_telemetry", JValue.bool true)]) (some "F")
        (demoWorld (some 0) (some 1))).events =
          (demoWorld (some 0) (some 1)).events ++ es ∧
      getFs (runFs [] es) "F" = some (JValue.obj c) ∧
      jGet c "reset" = some (JValue.bool false) ∧
      ∀ k, k ≠ "reset" → jGet c k =
        jGet [("reset", JValue.bool true), ("extra", JValue.str "keep"),
              ("use_udp_telemetry", JValue.bool true)] k) :=
  reset_rewrite_preserves_other_keys demoCmdEnv
    [("reset", JValue.bool true), ("extra", JValue.str "keep"),
     ("use_udp_telemetry", JValue.bool true)] "F"
    (demoWorld (some 0) (some 1)) [] rfl rfl rfl

theorem rebind_closes_then_creates (envc : CmdEnv) (pv : JValue) (p : Int)
    (id : Nat) (path : Option String) (w2 : World)
    (hp : pyInt pv = some p) (hs : w2.state.input_sock = some id) :
    ∃ es, (handle_input_data envc (JValue.obj [("input_udp_port", pv)]) path
        w2).events = w2.events ++ es ∧
      es.filter isSockEvent =
        [Effect.sockClose id,
         Effect.sockCreate w2.nextSock true (envc.createOk w2.nextSock)] := by
  show ∃ es, (reset_block envc _ path
      (use_input_udp_block envc _
        (input_rebind_block envc _
          (use_udp_telemetry_block envc _
            (telemetry_target_block [("input_udp_port", pv)] w2))))).events
      = w2.events ++ es ∧ _
  rw [show telemetry_target_block [("input_udp_port", pv)] w2 = w2 from rfl]
  rw [show use_udp_telemetry_block envc [("input_udp_port", pv)] w2 = w2 from rfl]
  have hbody : ∃ es, (input_rebind_block envc [("input_udp_port", pv)] w2).events
      = w2.events ++ es ∧
      es.filter isSockEvent =
        [Effect.sockClose id,
         Effect.sockCreate w2.nextSock true (envc.createOk w2.nextSock)] := by
    unfold input_rebind_block
    dsimp only
    rw [show (jMem [("input_udp_port", pv)] "input_udp_host" ||
              jMem [("input_udp_port", pv)] "input_udp_port") = true from rfl]
    rw [show jGetD [("input_udp_port", pv)] "input_udp_port"
          (JValue.num w2.state.INPUT_UDP_PORT) = pv from rfl]
    rw [hp]
    dsimp only
    rw [hs]
    rw [show Option.isSome (some id) = true from rfl, if_pos rfl]
    by_cases hc : envc.createOk w2.nextSock
    · refine ⟨[Effect.sockClose id, Effect.sockCreate w2.nextSock true true,
               Effect.log "Input UDP socket bound"], ?_, ?_⟩
      · simp [close_socket, create_udp_socket, emit, hc]
      · rw [hc]; rfl
    · refine ⟨[Effect.sockClose id, Effect.sockCreate w2.nextSock true false,
               Effect.log "_create_udp_socket error",
               Effect.log "Input UDP socket bound"], ?_, ?_⟩
      · simp [close_socket, create_udp_socket, emit, hc]
      · rw [show envc.createOk w2.nextSock = false by simpa using hc]; rfl
  obtain ⟨es, he, hfil⟩ := hbody
  have h4 : use_input_udp_block envc [("input_udp_port", pv)]
      (input_rebind_block envc [("input_udp_port", pv)] w2) =
      input_rebind_block envc [("input_udp_port", pv)] w2 := rfl
  have h5 : ∀ w3 : World, reset_block envc [("input_udp_port", pv)] path w3 = w3 := by
    intro w3
    unfold reset_block
    dsimp only
    rw [show isPyTrue (jGet [("input_udp_port", pv)] "reset") = false from rfl]
    simp
  rw [h4, h5]
  exact ⟨es, he, hfil⟩

/-- C4: across any sequence of processed command messages (rebinds
included, with arbitrary creation failures) at most one live command-in
handle exists, and a rebind closes the existing handle before attempting
the new bind — even when that bind fails. -/
theorem input_rebind_single_live_handle (w : World)
    (cmds : List (CmdEnv × JValue × Option String)) (hinv : inputHandleInv w) :
    inputHandleInv (processSeq cmds w) ∧
    (processSeq cmds w).liveInput.length ≤ 1 ∧
    ∀ (envc : CmdEnv) (pv : JValue) (p : Int) (id : Nat) (path : Option String),
      pyInt pv = some p → (processSeq cmds w).state.input_sock = some id →
      ∃ es, (handle_input_data envc (JValue.obj [("input_udp_port", pv)]) path
          (processSeq cmds w)).events = (processSeq cmds w).events ++ es ∧
        es.filter isSockEvent =
          [Effect.sockClose id,
           Effect.sockCreate (processSeq cmds w).nextSock true
             (envc.createOk (processSeq cmds w).nextSock)] := by
  have hseq := inv_processSeq cmds w hinv
  refine ⟨hseq, ?_, ?_⟩
  · rw [hseq]
    cases (processSeq cmds w).state.input_sock <;> simp
  · intro envc pv p id path hp hs
    exact rebind_closes_then_creates envc pv p id path _ hp hs

/-- C4 witness: from the default world, a rebind to port 6001 followed by
one whose socket creation fails; the invariant and the close-then-create
trace hold at each step. -/
theorem input_rebind_single_live_handle_witness :
    (inputHandleInv (processSeq
        [(demoCmdEnv, JValue.obj [("input_udp_port", JValue.num 6001)], none)]
        (demoWorld (some 0) (some 1))) ∧
     (processSeq
        [(demoCmdEnv, JValue.obj [("input_udp_port", JValue.num 6001)], none)]
        (demoWorld (some 0) (some 1))).liveInput.length ≤ 1 ∧
     ∀ (envc : CmdEnv) (pv : JValue) (p : Int) (id : Nat) (path : Option String),
      pyInt pv = some p →
      (processSeq
        [(demoCmdEnv, JValue.obj [("input_udp_port", JValue.num 6001)], none)]
        (demoWorld (some 0) (some 1))).state.input_sock = some id →
      ∃ es, (handle_input_data envc (JValue.obj [("input_udp_port", pv)]) path
          (processSeq
            [(demoCmdEnv, JValue.obj [("input_udp_port", JValue.num 6001)], none)]
            (demoWorld (some 0) (some 1)))).events =
          (processSeq
            [(demoCmdEnv, JValue.obj [("input_udp_port", JValue.num 6001)], none)]
            (demoWorld (some 0) (some 1))).events ++ es ∧
        es.filter isSockEvent =
          [Effect.sockClose id,
           Effect.sockCreate
             (processSeq
               [(demoCmdEnv, JValue.obj [("input_udp_port", JValue.num 6001)], none)]
               (demoWorld (some 0) (some 1))).nextSock true
             (envc.createOk
               (processSeq
                 [(demoCmdEnv, JValue.obj [("input_udp_port", JValue.num 6001)], none)]
                 (demoWorld (some 0) (some 1))).nextSock)]) :=
  input_rebind_single_live_handle (demoWorld (some 0) (some 1))
    [(demoCmdEnv, JValue.obj [("input_udp_port", JValue.num 6001)], none)] rfl

/-- C5: enabling an already-enabled transport or disabling an
already-disabled one is a strict no-op — the whole world (configured
hosts, ports, addresses, handles, live sockets, trace) is unchanged, for
both the telemetry and the command-in transport. -/
theorem transport_toggle_idempotent (envc : CmdEnv) (path : Option String)
    (w : World) :
    (∀ h, w.state.telemetry_sock = some h →
      handle_input_data envc (JValue.obj [("use_udp_telemetry", JValue.bool true)])
        path w = w) ∧
    (w.state.telemetry_sock = none →
      handle_input_data envc (JValue.obj [("use_udp_telemetry", JValue.bool false)])
        path w = w) ∧
    (∀ h, w.state.input_sock = some h →
      handle_input_data envc (JValue.obj [("use_input_udp", JValue.bool true)])
        path w = w) ∧
    (w.state.input_sock = none →
      handle_input_data envc (JValue.obj [("use_input_udp", JValue.bool false)])
        path w = w) := by
  refine ⟨?_, ?_, ?_, ?_⟩
  · intro h hsock
    show reset_block envc _ path
      (use_input_udp_block envc _
        (input_rebind_block envc _
          (use_udp_telemetry_block envc _
            (telemetry_target_block _ w)))) = w
    rw [show telemetry_target_block [("use_udp_telemetry", JValue.bool true)] w = w
        from rfl]
    rw [show use_udp_telemetry_block envc [("use_udp_telemetry", JValue.bool true)] w
        = w by
      unfold use_udp_telemetry_block
      dsimp only
      simp [jMem, jGet, jGetD, pyTruthy, hsock]]
    rfl
  · intro hsock
    show reset_block envc _ path
      (use_input_udp_block envc _
        (input_rebind_block envc _
          (use_udp_telemetry_block envc _
            (telemetry_target_block _ w)))) = w
    rw [show telemetry_target_block [("use_udp_telemetry", JValue.bool false)] w = w
        from rfl]
    rw [show use_udp_telemetry_block envc [("use_udp_telemetry", JValue.bool false)] w
        = w by
      unfold use_udp_telemetry_block
      dsimp only
      simp [jMem, jGet, jGetD, pyTruthy, hsock]]
    rfl
  · intro h hsock
    show reset_block envc _ path
      (use_input_udp_block envc _
        (input_rebind_block envc _
          (use_udp_telemetry_block envc _
            (telemetry_target_block _ w)))) = w
    rw [show telemetry_target_block [("use_input_udp", JValue.bool true)] w = w
        from rfl]
    rw [show use_udp_telemetry_block envc [("use_input_udp", JValue.bool true)] w = w
        from rfl]
    rw [show input_rebind_block envc [("use_input_udp", JValue.bool true)] w = w
        from rfl]
    rw [show use_input_udp_block envc [("use_input_udp", JValue.bool true)] w = w by
      unfold use_input_udp_block
      dsimp only
      simp [jMem, jGet, jGetD, pyTruthy, hsock]]
    rfl
  · intro hsock
    show reset_block envc _ path
      (use_input_udp_block envc _
        (input_rebind_block envc _
          (use_udp_telemetry_block envc _
            (telemetry_target_block _ w)))) = w
    rw [show telemetry_target_block [("use_input_udp", JValue.bool false)] w = w
        from rfl]
    rw [show use_udp_telemetry_block envc [("use_input_udp", JValue.bool false)] w = w
        from rfl]
    rw [show input_rebind_block envc [("use_input_udp", JValue.bool false)] w = w
        from rfl]
    rw [show use_input_udp_block envc [("use_input_udp", JValue.bool false)] w = w by
      unfold use_input_udp_block
      dsimp only
      simp [jMem, jGet, jGetD, pyTruthy, hsock]]
    rfl

/-- C5 witness: all four idempotence cases at the default world (live
handles 0/1, resp. both disabled). -/
theorem transport_toggle_idempotent_witness :
    handle_input_data demoCmdEnv (JValue.obj [("use_udp_telemetry", JValue.bool true)])
        none (demoWorld (some 0) (some 1)) = demoWorld (some 0) (some 1) ∧
    handle_input_data demoCmdEnv (JValue.obj [("use_udp_telemetry", JValue.bool false)])
        none (demoWorld none none) = demoWorld none none ∧
    handle_input_data demoCmdEnv (JValue.obj [("use_input_udp", JValue.bool true)])
        none (demoWorld (some 0) (some 1)) = demoWorld (some 0) (some 1) ∧
    handle_input_data demoCmdEnv (JValue.obj [("use_input_udp", JValue.bool false)])
        none (demoWorld none none) = demoWorld none none :=
  ⟨(transport_toggle_idempotent demoCmdEnv none (demoWorld (some 0) (some 1))).1 0 rfl,
   (transport_toggle_idempotent demoCmdEnv none (demoWorld none none)).2.1 rfl,
   (transport_toggle_idempotent demoCmdEnv none (demoWorld (some 0) (some 1))).2.2.1 1 rfl,
   (transport_toggle_idempotent demoCmdEnv none (demoWorld none none)).2.2.2 rfl⟩

theorem ttb_goodport (cmd : List (String × JValue)) (w : World) (pv : JValue) (p : Int)
    (hk : (jMem cmd "telemetry_udp_host" || jMem cmd "telemetry_udp_port") = true)
    (hv : jGetD cmd "telemetry_udp_port" (JValue.num w.state.TELEMETRY_UDP_PORT) = pv)
    (hp : pyInt pv = some p) :
    telemetry_target_block cmd w =
      emit { w with state := { w.state with
          TELEMETRY_UDP_HOST := jGetD cmd "telemetry_udp_host" w.state.TELEMETRY_UDP_HOST
          TELEMETRY_UDP_PORT := p
          telemetry_addr := (jGetD cmd "telemetry_udp_host" w.state.TELEMETRY_UDP_HOST, p) } }
        (Effect.log "Telemetry UDP target updated via input") := by
  unfold telemetry_target_block
  dsimp only
  rw [if_pos hk, hv, hp]

theorem ttb_badport (cmd : List (String × JValue)) (w : World) (pv : JValue)
    (hk : (jMem cmd "telemetry_udp_host" || jMem cmd "telemetry_udp_port") = true)
    (hv : jGetD cmd "telemetry_udp_port" (JValue.num w.state.TELEMETRY_UDP_PORT) = pv)
    (hp : pyInt pv = none) :
    telemetry_target_block cmd w =
      emit w (Effect.log "Invalid telemetry_udp_port in input") := by
  unfold telemetry_target_block
  dsimp only
  rw [if_pos hk, hv, hp]

theorem irb_badport (envc : CmdEnv) (cmd : List (String × JValue)) (w : World)
    (pv : JValue)
    (hk : (jMem cmd "input_udp_host" || jMem cmd "input_udp_port") = true)
    (hv : jGetD cmd "input_udp_port" (JValue.num w.state.INPUT_UDP_PORT) = pv)
    (hp : pyInt pv = none) :
    input_rebind_block envc cmd w =
      emit w (Effect.log "Invalid input_udp_port in input") := by
  unfold input_rebind_block
  dsimp only
  rw [if_pos hk, hv, hp]

theorem irb_state (envc : CmdEnv) (cmd : List (String × JValue)) (w : World)
    (pv : JValue) (p : Int)
    (hk : (jMem cmd "input_udp_host" || jMem cmd "input_udp_port") = true)
    (hv : jGetD cmd "input_udp_port" (JValue.num w.state.INPUT_UDP_PORT) = pv)
    (hp : pyInt pv = some p) :
    (input_rebind_block envc cmd w).state.INPUT_UDP_PORT = p ∧
    (input_rebind_block envc cmd w).state.INPUT_UDP_HOST =
      jGetD cmd "input_udp_host" w.state.INPUT_UDP_HOST ∧
    (input_rebind_block envc cmd w).state.input_addr =
      (jGetD cmd "input_udp_host" w.state.INPUT_UDP_HOST, p) ∧
    (input_rebind_block envc cmd w).state.TELEMETRY_UDP_HOST = w.state.TELEMETRY_UDP_HOST ∧
    (input_rebind_block envc cmd w).state.TELEMETRY_UDP_PORT = w.state.TELEMETRY_UDP_PORT ∧
    (input_rebind_block envc cmd w).state.telemetry_addr = w.state.telemetry_addr ∧
    (input_rebind_block envc cmd w).state.telemetry_sock = w.state.telemetry_sock ∧
    (input_rebind_block envc cmd w).state.input_sock =
      (if envc.createOk w.nextSock then some w.nextSock else none) := by
  unfold input_rebind_block
  dsimp only
  rw [if_pos hk, hv, hp]
  dsimp only
  rcases hs : w.state.input_sock with _ | id <;>
    by_cases hc : envc.createOk w.nextSock <;>
    simp [hs, hc, close_socket, create_udp_socket, emit]

/-- C6: a malformed (non-integer-convertible) port value only skips that
key's action, is logged, and every other key of the same message is still
processed: with a bad telemetry port, the telemetry target is untouched
while an accompanying input rebind and reset still happen; with a bad
input port, the command-in configuration is untouched while an
accompanying telemetry retarget and reset still happen. -/
theorem malformed_port_skips_only_that_key (envc : CmdEnv) (w : World)
    (v : JValue) (hbad : pyInt v = none) :
    ((handle_input_data envc
        (JValue.obj [("telemetry_udp_port", v), ("input_udp_port", JValue.num 7000),
                     ("reset", JValue.bool true)]) none w).state.TELEMETRY_UDP_HOST
        = w.state.TELEMETRY_UDP_HOST ∧
     (handle_input_data envc
        (JValue.obj [("telemetry_udp_port", v), ("input_udp_port", JValue.num 7000),
                     ("reset", JValue.bool true)]) none w).state.TELEMETRY_UDP_PORT
        = w.state.TELEMETRY_UDP_PORT ∧
     (handle_input_data envc
        (JValue.obj [("telemetry_udp_port", v), ("input_udp_port", JValue.num 7000),
                     ("reset", JValue.bool true)]) none w).state.telemetry_addr
        = w.state.telemetry_addr ∧
     (handle_input_data envc
        (JValue.obj [("telemetry_udp_port", v), ("input_udp_port", JValue.num 7000),
                     ("reset", JValue.bool true)]) none w).state.INPUT_UDP_PORT = 7000 ∧
     (handle_input_data envc
        (JValue.obj [("telemetry_udp_port", v), ("input_udp_port", JValue.num 7000),
                     ("reset", JValue.bool true)]) none w).state.input_addr
        = (w.state.INPUT_UDP_HOST, 7000) ∧
     Effect.log "Invalid telemetry_udp_port in input" ∈
       (handle_input_data envc
        (JValue.obj [("telemetry_udp_port", v), ("input_udp_port", JValue.num 7000),
                     ("reset", JValue.bool true)]) none w).events ∧
     (handle_input_data envc
        (JValue.obj [("telemetry_udp_port", v), ("input_udp_port", JValue.num 7000),
                     ("reset", JValue.bool true)]) none w).events.filter isSendCMD
        = w.events.filter isSendCMD ++ [Effect.sendCMD 68, Effect.sendCMD 69]) ∧
    ((handle_input_data envc
        (JValue.obj [("input_udp_port", v), ("telemetry_udp_port", JValue.num 9999),
                     ("reset", JValue.bool true)]) none w).state.INPUT_UDP_HOST
        = w.state.INPUT_UDP_HOST ∧
     (handle_input_data envc
        (JValue.obj [("input_udp_port", v), ("telemetry_udp_port", JValue.num 9999),
                     ("reset", JValue.bool true)]) none w).state.INPUT_UDP_PORT
        = w.state.INPUT_UDP_PORT ∧
     (handle_input_data envc
        (JValue.obj [("input_udp_port", v), ("telemetry_udp_port", JValue.num 9999),
                     ("reset", JValue.bool true)]) none w).state.input_addr
        = w.state.input_addr ∧
     (handle_input_data envc
        (JValue.obj [("input_udp_port", v), ("telemetry_udp_port", JValue.num 9999),
                     ("reset", JValue.bool true)]) none w).state.input_sock
        = w.state.input_sock ∧
     (handle_input_data envc
        (JValue.obj [("input_udp_port", v), ("telemetry_udp_port", JValue.num 9999),
                     ("reset", JValue.bool true)]) none w).state.TELEMETRY_UDP_PORT
        = 9999 ∧
     Effect.log "Invalid input_udp_port in input" ∈
       (handle_input_data envc
        (JValue.obj [("input_udp_port", v), ("telemetry_udp_port", JValue.num 9999),
                     ("reset", JValue.bool true)]) none w).events ∧
     (handle_input_data envc
        (JValue.obj [("input_udp_port", v), ("telemetry_udp_port", JValue.num 9999),
                     ("reset", JValue.bool true)]) none w).events.filter isSendCMD
        = w.events.filter isSendCMD ++ [Effect.sendCMD 68, Effect.sendCMD 69]) := by
  constructor
  · have hA : handle_input_data envc
        (JValue.obj [("telemetry_udp_port", v), ("input_udp_port", JValue.num 7000),
                     ("reset", JValue.bool true)]) none w =
        { input_rebind_block envc
            [("telemetry_udp_port", v), ("input_udp_port", JValue.num 7000),
             ("reset", JValue.bool true)]
            (emit w (Effect.log "Invalid telemetry_udp_port in input")) with
          events := (input_rebind_block envc
            [("telemetry_udp_port", v), ("input_udp_port", JValue.num 7000),
             ("reset", JValue.bool true)]
            (emit w (Effect.log "Invalid telemetry_udp_port in input"))).events ++
            [Effect.sendCMD 68, Effect.sendCMD 69] } := by
      show reset_block envc _ none (use_input_udp_block envc _ (input_rebind_block envc _
        (use_udp_telemetry_block envc _ (telemetry_target_block _ w)))) = _
      rw [ttb_badport
        [("telemetry_udp_port", v), ("input_udp_port", JValue.num 7000),
         ("reset", JValue.bool true)] w v rfl rfl hbad]
      rfl
    obtain ⟨hst1, hst2, hst3, hst4, hst5, hst6, hst7, _⟩ :=
      irb_state envc
        [("telemetry_udp_port", v), ("input_udp_port", JValue.num 7000),
         ("reset", JValue.bool true)]
        (emit w (Effect.log "Invalid telemetry_udp_port in input"))
        (JValue.num 7000) 7000 rfl rfl rfl
    obtain ⟨es2, hev2, hq2⟩ :=
      quiet_input_rebind_block envc
        [("telemetry_udp_port", v), ("input_udp_port", JValue.num 7000),
         ("reset", JValue.bool true)]
        (emit w (Effect.log "Invalid telemetry_udp_port in input"))
    refine ⟨?_, ?_, ?_, ?_, ?_, ?_, ?_⟩
    · rw [hA]; exact hst4
    · rw [hA]; exact hst5
    · rw [hA]; exact hst6
    · rw [hA]; exact hst1
    · rw [hA]; exact hst3
    · rw [hA]
      show _ ∈ (input_rebind_block envc _ _).events ++ _
      rw [hev2]
      simp [emit]
    · rw [hA]
      show ((input_rebind_block envc _ _).events ++ _).filter isSendCMD = _
      rw [hev2]
      simp [emit, List.filter_append, isSendCMD, (filter_eq_nil_of_quiet hq2).1]
  · have hB : handle_input_data envc
        (JValue.obj [("input_udp_port", v), ("telemetry_udp_port", JValue.num 9999),
                     ("reset", JValue.bool true)]) none w =
        { emit (emit { w with state := { w.state with
              TELEMETRY_UDP_HOST := w.state.TELEMETRY_UDP_HOST
              TELEMETRY_UDP_PORT := 9999
              telemetry_addr := (w.state.TELEMETRY_UDP_HOST, 9999) } }
            (Effect.log "Telemetry UDP target updated via input"))
            (Effect.log "Invalid input_udp_port in input") with
          events := (emit (emit { w with state := { w.state with
              TELEMETRY_UDP_HOST := w.state.TELEMETRY_UDP_HOST
              TELEMETRY_UDP_PORT := 9999
              telemetry_addr := (w.state.TELEMETRY_UDP_HOST, 9999) } }
            (Effect.log "Telemetry UDP target updated via input"))
            (Effect.log "Invalid input_udp_port in input")).events ++
            [Effect.sendCMD 68, Effect.sendCMD 69] } := by
      show reset_block envc _ none (use_input_udp_block envc _ (input_rebind_block envc _
        (use_udp_telemetry_block envc _ (telemetry_target_block _ w)))) = _
      rw [ttb_goodport
        [("input_udp_port", v), ("telemetry_udp_port", JValue.num 9999),
         ("reset", JValue.bool true)] w (JValue.num 9999) 9999 rfl rfl rfl]
      rw [irb_badport envc
        [("input_udp_port", v), ("telemetry_udp_port", JValue.num 9999),
         ("reset", JValue.bool true)] _ v rfl rfl hbad]
      rfl
    rw [hB]
    refine ⟨rfl, rfl, rfl, rfl, rfl, ?_, ?_⟩
    · simp [emit]
    · simp [emit, List.filter_append, isSendCMD]

/-- C6 witness: the message
`{"telemetry_udp_port": "abc", "input_udp_port": 7000, "reset": true}` on
the default world: the telemetry port stays 9876 while the input rebind
to 7000 still happens. -/
theorem malformed_port_skips_only_that_key_witness :
    (handle_input_data demoCmdEnv
        (JValue.obj [("telemetry_udp_port", JValue.str "abc"),
                     ("input_udp_port", JValue.num 7000),
                     ("reset", JValue.bool true)])
        none (demoWorld (some 0) (some 1))).state.TELEMETRY_UDP_PORT = 9876 ∧
    (handle_input_data demoCmdEnv
        (JValue.obj [("telemetry_udp_port", JValue.str "abc"),
                     ("input_udp_port", JValue.num 7000),
                     ("reset", JValue.bool true)])
        none (demoWorld (some 0) (some 1))).state.INPUT_UDP_PORT = 7000 :=
  have h := malformed_port_skips_only_that_key demoCmdEnv
    (demoWorld (some 0) (some 1)) (JValue.str "abc") rfl
  ⟨h.1.2.1.trans rfl, h.1.2.2.2.1⟩

/-- C7: a `telemetry_udp_host`/`telemetry_udp_port` command with a valid
integer port only changes the telemetry destination address — the
telemetry socket handle is neither closed, recreated nor rebound, and no
socket event is emitted — and the next tick's snapshot is sent through
the same handle to the newly configured address. -/
theorem telemetry_retarget_no_rebind (envc : CmdEnv) (w : World) (hv pv : JValue)
    (p : Int) (h : Nat) (path : Option String)
    (hp : pyInt pv = some p) (hs : w.state.telemetry_sock = some h) :
    (handle_input_data envc
        (JValue.obj [("telemetry_udp_host", hv), ("telemetry_udp_port", pv)])
        path w).state.telemetry_sock = some h ∧
    (handle_input_data envc
        (JValue.obj [("telemetry_udp_host", hv), ("telemetry_udp_port", pv)])
        path w).liveTelemetry = w.liveTelemetry ∧
    (handle_input_data envc
        (JValue.obj [("telemetry_udp_host", hv), ("telemetry_udp_port", pv)])
        path w).liveInput = w.liveInput ∧
    (handle_input_data envc
        (JValue.obj [("telemetry_udp_host", hv), ("telemetry_udp_port", pv)])
        path w).state.input_sock = w.state.input_sock ∧
    (handle_input_data envc
        (JValue.obj [("telemetry_udp_host", hv), ("telemetry_udp_port", pv)])
        path w).events
      = w.events ++ [Effect.log "Telemetry UDP target updated via input"] ∧
    (handle_input_data envc
        (JValue.obj [("telemetry_udp_host", hv), ("telemetry_udp_port", pv)])
        path w).state.telemetry_addr = (hv, p) ∧
    ∀ env : TickEnv, env.inputFile = none → env.udpPackets = [] →
      env.providers.tyre_info = true → label_loop_ok env = true →
      env.sendOk = true →
      (acUpdate env (handle_input_data envc
          (JValue.obj [("telemetry_udp_host", hv), ("telemetry_udp_port", pv)])
          path w)).events
        = (handle_input_data envc
            (JValue.obj [("telemetry_udp_host", hv), ("telemetry_udp_port", pv)])
            path w).events ++
          [Effect.sendTo h (payloadJson env) (hv, p)] := by
  have hW : handle_input_data envc
      (JValue.obj [("telemetry_udp_host", hv), ("telemetry_udp_port", pv)]) path w =
      emit { w with state := { w.state with
          TELEMETRY_UDP_HOST := hv
          TELEMETRY_UDP_PORT := p
          telemetry_addr := (hv, p) } }
        (Effect.log "Telemetry UDP target updated via input") := by
    show reset_block envc _ path (use_input_udp_block envc _ (input_rebind_block envc _
      (use_udp_telemetry_block envc _ (telemetry_target_block _ w)))) = _
    rw [ttb_goodport [("telemetry_udp_host", hv), ("telemetry_udp_port", pv)]
      w pv p rfl rfl hp]
    rfl
  rw [hW]
  refine ⟨hs, rfl, rfl, rfl, rfl, rfl, ?_⟩
  intro env hf hpk ht hl hok
  rw [acUpdate_publish env _ ht hl, check_input_file_nocmd env _ hf hpk]
  rw [publish_send env _ h (by exact hs) hok]
  rfl

/-- C7 witness: `{"telemetry_udp_host": "127.0.0.1", "telemetry_udp_port": 9999}`
on the default world (telemetry handle 0, previously targeting 9876):
the handle survives and the benign tick sends to port 9999. -/
theorem telemetry_retarget_no_rebind_witness :
    (handle_input_data demoCmdEnv
        (JValue.obj [("telemetry_udp_host", JValue.str "127.0.0.1"),
                     ("telemetry_udp_port", JValue.num 9999)])
        none (demoWorld (some 0) (some 1))).state.telemetry_sock = some 0 ∧
    (handle_input_data demoCmdEnv
        (JValue.obj [("telemetry_udp_host", JValue.str "127.0.0.1"),
                     ("telemetry_udp_port", JValue.num 9999)])
        none (demoWorld (some 0) (some 1))).state.telemetry_addr
      = (JValue.str "127.0.0.1", 9999) ∧
    (acUpdate demoTickEnv (handle_input_data demoCmdEnv
        (JValue.obj [("telemetry_udp_host", JValue.str "127.0.0.1"),
                     ("telemetry_udp_port", JValue.num 9999)])
        none (demoWorld (some 0) (some 1)))).events
      = (handle_input_data demoCmdEnv
          (JValue.obj [("telemetry_udp_host", JValue.str "127.0.0.1"),
                       ("telemetry_udp_port", JValue.num 9999)])
          none (demoWorld (some 0) (some 1))).events ++
        [Effect.sendTo 0 (payloadJson demoTickEnv) (JValue.str "127.0.0.1", 9999)] :=
  have hmain := telemetry_retarget_no_rebind demoCmdEnv (demoWorld (some 0) (some 1))
    (JValue.str "127.0.0.1") (JValue.num 9999) 9999 0 none rfl rfl
  ⟨hmain.1, hmain.2.2.2.2.2.1,
   hmain.2.2.2.2.2.2 demoTickEnv rfl rfl rfl rfl rfl⟩

/-- C10: an `input_udp_host`/`input_udp_port` command whose port converts
to an integer records the new host and port (and address) in the
configuration before the new socket is created, so when every socket
creation fails the processing still ends with the new configuration and a
null command-in handle. -/
theorem rebind_updates_config_before_create (envc : CmdEnv) (w : World)
    (m : List (String × JValue)) (hv pv : JValue) (p : Int) (path : Option String)
    (hh : jGet m "input_udp_host" = some hv)
    (hpv : jGet m "input_udp_port" = some pv)
    (hip : pyInt pv = some p) (hnu : jMem m "use_input_udp" = false)
    (hcf : ∀ k, envc.createOk k = false) :
    (handle_input_data envc (JValue.obj m) path w).state.INPUT_UDP_HOST = hv ∧
    (handle_input_data envc (JValue.obj m) path w).state.INPUT_UDP_PORT = p ∧
    (handle_input_data envc (JValue.obj m) path w).state.input_addr = (hv, p) ∧
    (handle_input_data envc (JValue.obj m) path w).state.input_sock = none := by
  have hgh : ∀ d, jGetD m "input_udp_host" d = hv := by
    intro d; unfold jGetD; rw [hh]; rfl
  have hgp : ∀ d, jGetD m "input_udp_port" d = pv := by
    intro d; unfold jGetD; rw [hpv]; rfl
  have hk : (jMem m "input_udp_host" || jMem m "input_udp_port") = true := by
    have : jMem m "input_udp_port" = true := by unfold jMem; rw [hpv]; rfl
    rw [this, Bool.or_true]
  have hhandle : handle_input_data envc (JValue.obj m) path w =
      reset_block envc m path
        (use_input_udp_block envc m
          (input_rebind_block envc m
            (use_udp_telemetry_block envc m
              (telemetry_target_block m w)))) := rfl
  have huib : use_input_udp_block envc m
      (input_rebind_block envc m
        (use_udp_telemetry_block envc m (telemetry_target_block m w))) =
      input_rebind_block envc m
        (use_udp_telemetry_block envc m (telemetry_target_block m w)) := by
    unfold use_input_udp_block
    dsimp only
    simp [hnu]
  have hrs := (reset_block_frame envc m path
    (use_input_udp_block envc m
      (input_rebind_block envc m
        (use_udp_telemetry_block envc m (telemetry_target_block m w))))).1
  obtain ⟨i1, i2, i3, -, -, -, -, i8⟩ :=
    irb_state envc m
      (use_udp_telemetry_block envc m (telemetry_target_block m w)) pv p hk
      (hgp _) hip
  rw [hhandle, hrs, huib]
  refine ⟨?_, i1, ?_, ?_⟩
  · rw [i2, hgh]
  · rw [i3, hgh]
  · rw [i8, hcf]
    simp

/-- C10 witness: `{"input_udp_host": "10.0.0.1", "input_udp_port": 6001}`
on the default world with an always-failing socket factory: the new
configuration is recorded and the handle is null. -/
theorem rebind_updates_config_before_create_witness :
    (handle_input_data
        { createOk := fun _ => false, writeOk := true, replaceOk := true,
          renameOk := true }
        (JValue.obj [("input_udp_host", JValue.str "10.0.0.1"),
                     ("input_udp_port", JValue.num 6001)])
        none (demoWorld (some 0) (some 1))).state.INPUT_UDP_HOST
      = JValue.str "10.0.0.1" ∧
    (handle_input_data
        { createOk := fun _ => false, writeOk := true, replaceOk := true,
          renameOk := true }
        (JValue.obj [("input_udp_host", JValue.str "10.0.0.1"),
                     ("input_udp_port", JValue.num 6001)])
        none (demoWorld (some 0) (some 1))).state.INPUT_UDP_PORT = 6001 ∧
    (handle_input_data
        { createOk := fun _ => false, writeOk := true, replaceOk := true,
          renameOk := true }
        (JValue.obj [("input_udp_host", JValue.str "10.0.0.1"),
                     ("input_udp_port", JValue.num 6001)])
        none (demoWorld (some 0) (some 1))).state.input_addr
      = (JValue.str "10.0.0.1", 6001) ∧
    (handle_input_data
        { createOk := fun _ => false, writeOk := true, replaceOk := true,
          renameOk := true }
        (JValue.obj [("input_udp_host", JValue.str "10.0.0.1"),
                     ("input_udp_port", JValue.num 6001)])
        none (demoWorld (some 0) (some 1))).state.input_sock = none :=
  rebind_updates_config_before_create
    { createOk := fun _ => false, writeOk := true, replaceOk := true,
      renameOk := true }
    (demoWorld (some 0) (some 1))
    [("input_udp_host", JValue.str "10.0.0.1"), ("input_udp_port", JValue.num 6001)]
    (JValue.str "10.0.0.1") (JValue.num 6001) 6001 none rfl rfl rfl rfl
    (fun _ => rfl)

/-- C1: on any tick (with the tyre provider present and the direct label
reads succeeding, so a snapshot exists), if the telemetry handle is null
after command processing or the UDP send fails, the tick's serialized
snapshot is written to the fallback telemetry file by the
temp-file-then-atomic-replace pattern; `acUpdate` is a total function of
the environment, so no exception escapes the tick handler on any branch. -/
theorem telemetry_send_failure_falls_back (env : TickEnv) (w : World) (fs : FileSys)
    (ht : env.providers.tyre_info = true) (hl : label_loop_ok env = true)
    (hFail : (check_input_file env w).state.telemetry_sock = none ∨ env.sendOk = false)
    (hw : env.writeOk = true) (hrep : env.replaceOk = true) :
    ∃ es, (acUpdate env w).events = (check_input_file env w).events ++ es ∧
      es.filter isFsEvent =
        [Effect.writeTmp (telemetryPath env ++ ".tmp") (payloadJson env),
         Effect.replaceFile (telemetryPath env ++ ".tmp") (telemetryPath env)] ∧
      getFs (runFs fs es) (telemetryPath env) = some (payloadJson env) := by
  rw [acUpdate_publish env w ht hl]
  exact publish_fallback env (check_input_file env w) fs hFail hw hrep

/-- C1 witness: the benign tick environment with the send failing, on the
default world: the snapshot lands in the fallback file. -/
theorem telemetry_send_failure_falls_back_witness :
    ∃ es, (acUpdate { demoTickEnv with sendOk := false }
        (demoWorld (some 0) (some 1))).events =
        (check_input_file { demoTickEnv with sendOk := false }
          (demoWorld (some 0) (some 1))).events ++ es ∧
      es.filter isFsEvent =
        [Effect.writeTmp
           (telemetryPath { demoTickEnv with sendOk := false } ++ ".tmp")
           (payloadJson { demoTickEnv with sendOk := false }),
         Effect.replaceFile
           (telemetryPath { demoTickEnv with sendOk := false } ++ ".tmp")
           (telemetryPath { demoTickEnv with sendOk := false })] ∧
      getFs (runFs [] es) (telemetryPath { demoTickEnv with sendOk := false })
        = some (payloadJson { demoTickEnv with sendOk := false }) :=
  telemetry_send_failure_falls_back { demoTickEnv with sendOk := false }
    (demoWorld (some 0) (some 1)) [] rfl rfl (Or.inr rfl) rfl rfl

/-- C3 counterexample: with the tyre provider module missing but every
other provider present and a healthy telemetry socket, the tick returns
at line 507 before building the snapshot — nothing is sent and nothing is
written, so a missing provider does abort the tick's sampling and
publishing, contrary to the claim. -/
theorem tyre_provider_missing_aborts_tick :
    (demoWorld (some 0) (some 1)).state.telemetry_sock = some 0 ∧
    noTyreTickEnv.sendOk = true ∧
    (acUpdate noTyreTickEnv (demoWorld (some 0) (some 1))).events.filter isDelivery
      = [] :=
  ⟨rfl, rfl, rfl⟩

/-- C3 (amended): within the snapshot built via `safe_call` — reachable
whenever the tyre provider is present and the direct label-loop reads
succeed — a failing query yields `null` for exactly that field, a missing
provider yields an all-`null` field group (`index` excepted for tyres),
every other field group's values are unchanged, and the snapshot is still
delivered; but a missing tyre provider (or a raising direct label read)
makes the tick skip sampling and publishing entirely (no exception
escapes either way). -/
theorem snapshot_partial_failure_isolated :
    (∀ (env : TickEnv) (m : ACMod) (f : String) (a : List JValue),
      env.sample m f a = none → safe_call env m f a = JValue.null) ∧
    (∀ (e1 e2 : TickEnv) (m0 : ACMod),
      (∀ m : ACMod, m ≠ m0 →
        moduleAvailable e1.providers m = moduleAvailable e2.providers m) →
      (∀ (m : ACMod) (f : String) (a : List JValue), m ≠ m0 →
        e1.sample m f a = e2.sample m f a) →
      ∀ m : ACMod, m ≠ m0 → group e1 m = group e2 m) ∧
    (∀ (env : TickEnv) (m0 : ACMod), m0 ≠ ACMod.tyre_info →
      moduleAvailable env.providers m0 = false → allFieldsNull (group env m0)) ∧
    (∀ env : TickEnv, moduleAvailable env.providers ACMod.tyre_info = false →
      ∃ l, group env ACMod.tyre_info = JValue.arr l ∧ l.length = 4 ∧
        ∀ v ∈ l, tyreSampleNull v) ∧
    (∀ (env : TickEnv) (w : World) (h : Nat),
      env.inputFile = none → env.udpPackets = [] →
      env.providers.tyre_info = true → label_loop_ok env = true →
      w.state.telemetry_sock = some h → env.sendOk = true →
      (acUpdate env w).events =
        w.events ++ [Effect.sendTo h (payloadJson env) w.state.telemetry_addr]) := by
  refine ⟨?_, ?_, ?_, ?_, ?_⟩
  · intro env m f a hnone
    unfold safe_call
    rw [hnone]
    split <;> rfl
  · intro e1 e2 m0 hAv hS m hm
    exact group_congr e1 e2 m (hAv m hm) (fun f a => hS m f a hm)
  · intro env m0 hm hav
    exact group_null_of_missing env m0 hm hav
  · intro env hav
    refine ⟨_, rfl, rfl, ?_⟩
    intro v hv
    simp only [List.mem_map, List.mem_range] at hv
    obtain ⟨t, -, rfl⟩ := hv
    simp [tyreSampleNull, safe_call, hav]
  · intro env w h hf hp ht hl hs hok
    rw [acUpdate_publish env w ht hl, check_input_file_nocmd env w hf hp,
      publish_send env w h hs hok]
    rfl

/-- C3 witness: concrete instances of all five parts — a failing query
nulls its field, a session-only sample change leaves the car group
intact, a missing session provider nulls the session group, a missing
tyre provider nulls the tyre samples, and the benign tick still delivers
the snapshot over the live socket. -/
theorem snapshot_partial_failure_isolated_witness :
    safe_call { demoTickEnv with sample := fun _ _ _ => none }
        ACMod.car_info "get_fuel" [] = JValue.null ∧
    group demoTickEnv ACMod.car_info =
      group { demoTickEnv with
        sample := fun m _ _ =>
          match m with
          | ACMod.session_info => none
          | _ => some (JValue.num 1) } ACMod.car_info ∧
    allFieldsNull (group { demoTickEnv with
        providers := { tyre_info := true, car_info := true, car_stats := true,
                       input_info := true, lap_info := true,
                       session_info := false } } ACMod.session_info) ∧
    (∃ l, group noTyreTickEnv ACMod.tyre_info = JValue.arr l ∧ l.length = 4 ∧
      ∀ v ∈ l, tyreSampleNull v) ∧
    (acUpdate demoTickEnv (demoWorld (some 0) (some 1))).events =
      (demoWorld (some 0) (some 1)).events ++
        [Effect.sendTo 0 (payloadJson demoTickEnv)
          (demoWorld (some 0) (some 1)).state.telemetry_addr] :=
  ⟨snapshot_partial_failure_isolated.1 { demoTickEnv with sample := fun _ _ _ => none }
      ACMod.car_info "get_fuel" [] rfl,
   snapshot_partial_failure_isolated.2.1 demoTickEnv
     { demoTickEnv with
       sample := fun m _ _ =>
         match m with
         | ACMod.session_info => none
         | _ => some (JValue.num 1) }
     ACMod.session_info (fun _ _ => rfl)
     (fun m f a hm => by cases m <;> first | rfl | exact absurd rfl hm)
     ACMod.car_info (by decide),
   snapshot_partial_failure_isolated.2.2.1
     { demoTickEnv with
       providers := { tyre_info := true, car_info := true, car_stats := true,
                      input_info := true, lap_info := true,
                      session_info := false } }
     ACMod.session_info (by decide) rfl,
   snapshot_partial_failure_isolated.2.2.2.1 noTyreTickEnv rfl,
   snapshot_partial_failure_isolated.2.2.2.2 demoTickEnv
     (demoWorld (some 0) (some 1)) 0 rfl rfl rfl rfl rfl rfl⟩
